import Mathlib

/-!
Verification development for the Chhalaang telehealth backend.

This file gives a shallow embedding of the session-coordination core of the
repository: the in-memory `SessionManager` (backend/src/services/sessionManager
module, concatenated into transcriptionService.js at lines 1405-1717), the
Socket.IO event handlers (lines 953-1404), the `TranscriptionService` audio
buffering and provider-fallback pipeline (lines 324-813), and the
`MockAIService` transcription substitute (lines 814-952).

Conventions of the embedding:
* JavaScript `Map` objects become association lists (`List (String × α)`)
  with JS `Map` semantics: insertion order preserved, `set` on an existing
  key replaces in place, lookups return the first match.
* `Date` values become `Nat` millisecond timestamps passed explicitly as a
  `now` parameter; successive `new Date()` calls inside one handler are
  collapsed to the same instant.
* `null`/`undefined` become `Option`.
* Async calls to external services (speech-to-text providers, the MER
  generator LLM) become environment records carrying each call outcome as an
  `Except`; a rejected promise is `Except.error`.
* Provider-result fields irrelevant to every claim (word lists, language
  tags, utterance arrays) are omitted from `TranscriptSegment`; the float
  confidence scores 0.9 / 0.95 are carried as integer percents 90 / 95.
-/

namespace Chhalaang

/-! ## JS `Map` model: association lists with first-match lookup -/

/-- `map.get(k)`: first entry with the given key, if any. -/
def mapGet {α : Type} : List (String × α) → String → Option α
  | [], _ => none
  | (k1, v) :: rest, k => if k1 = k then some v else mapGet rest k

/-- `map.set(k, v)`: replace the first entry with the key in place, else
append at the end (JS `Map` insertion-order semantics). -/
def mapSet {α : Type} : List (String × α) → String → α → List (String × α)
  | [], k, v => [(k, v)]
  | (k1, v1) :: rest, k, v =>
      if k1 = k then (k, v) :: rest else (k1, v1) :: mapSet rest k v

/-- `map.delete(k)`: remove entries with the given key. -/
def mapDelete {α : Type} : List (String × α) → String → List (String × α)
  | [], _ => []
  | (k1, v1) :: rest, k =>
      if k1 = k then mapDelete rest k else (k1, v1) :: mapDelete rest k

theorem mapGet_mapSet_self {α : Type} (m : List (String × α)) (k : String) (v : α) :
    mapGet (mapSet m k v) k = some v := by
  induction m with
  | nil => simp [mapGet, mapSet]
  | cons hd tl ih =>
      obtain ⟨k1, v1⟩ := hd
      by_cases h : k1 = k
      · simp [mapGet, mapSet, h]
      · simp [mapGet, mapSet, h, ih]

theorem mapGet_mapSet_ne {α : Type} (m : List (String × α)) (k k' : String) (v : α)
    (h : k ≠ k') : mapGet (mapSet m k v) k' = mapGet m k' := by
  induction m with
  | nil => simp [mapGet, mapSet, h]
  | cons hd tl ih =>
      obtain ⟨k1, v1⟩ := hd
      by_cases h1 : k1 = k
      · subst h1
        simp [mapGet, mapSet, h]
      · simp only [mapSet, if_neg h1, mapGet]
        by_cases h2 : k1 = k'
        · simp [h2]
        · simp [h2, ih]

theorem mapGet_mapDelete_ne {α : Type} (m : List (String × α)) (k k' : String)
    (h : k ≠ k') : mapGet (mapDelete m k) k' = mapGet m k' := by
  induction m with
  | nil => simp [mapDelete]
  | cons hd tl ih =>
      obtain ⟨k1, v1⟩ := hd
      by_cases h1 : k1 = k
      · subst h1
        simp [mapDelete, mapGet, h, ih]
      · simp only [mapDelete, if_neg h1, mapGet]
        by_cases h2 : k1 = k'
        · simp [h2]
        · simp [h2, ih]

/-! ## Data model (SessionManager, lines 1405-1717) -/

/-- One participant slot of a session (`doctor` / `patient` objects). -/
structure Participant where
  name : Option String
  socketId : Option String
  joinedAt : Option Nat
  deriving DecidableEq, Repr

/-- `session.metadata`. -/
structure SessionMetadata where
  createdAt : Nat
  lastActivity : Nat
  recordingStartTime : Option Nat
  recordingEndTime : Option Nat
  deriving DecidableEq, Repr

/-- One transcript entry as pushed by the `audio-stream` handler. -/
structure TranscriptEntry where
  id : Nat
  speaker : String
  speakerName : String
  text : String
  timestamp : Nat
  confidencePct : Nat
  deriving DecidableEq, Repr

/-- The generated clinical record; its internal structure is opaque to the
session core, so it is carried as a single payload field. -/
structure MerDoc where
  content : String
  deriving DecidableEq, Repr

/-- A session object, per `createOrGetSession`. The socket handlers also set
the ad-hoc top-level properties `recordingStartTime` / `recordingEndTime`
(distinct from the ones nested in `metadata`), so both appear here. -/
structure Session where
  id : String
  doctor : Participant
  patient : Participant
  status : String
  transcript : List TranscriptEntry
  isRecording : Bool
  merDocument : Option MerDoc
  recordingStartTime : Option Nat
  recordingEndTime : Option Nat
  metadata : SessionMetadata
  deriving DecidableEq, Repr

/-- The module-level mutable maps `activeSessions` and `sessionUsers`. -/
structure ServerState where
  activeSessions : List (String × Session)
  sessionUsers : List (String × String)
  deriving DecidableEq, Repr

/-! ## SessionManager operations -/

/-- `createOrGetSession(sessionId, doctorName = 'Doctor', patientName = null)`.
Returns the (existing or fresh) session and the updated store. -/
def createOrGetSession (st : ServerState) (sessionId : String)
    (doctorName : String) (patientName : Option String) (now : Nat) :
    Session × ServerState :=
  match mapGet st.activeSessions sessionId with
  | some s => (s, st)
  | none =>
      let s : Session :=
        { id := sessionId
          doctor := { name := some doctorName, socketId := none, joinedAt := none }
          patient := { name := patientName, socketId := none, joinedAt := none }
          status := "waiting"
          transcript := []
          isRecording := false
          merDocument := none
          recordingStartTime := none
          recordingEndTime := none
          metadata := { createdAt := now, lastActivity := now,
                        recordingStartTime := none, recordingEndTime := none } }
      (s, { st with activeSessions := mapSet st.activeSessions sessionId s })

/-- The status update at the end of `addUserToSession`: set `active` when
both slots hold a connection, otherwise leave `status` as it was. -/
def recomputeActive (s : Session) : Session :=
  if s.doctor.socketId.isSome ∧ s.patient.socketId.isSome then
    { s with status := "active" }
  else s

/-- The status update at the end of `removeUserFromSession`: set `ended` when
neither slot holds a connection, otherwise leave `status` as it was. -/
def recomputeEnded (s : Session) : Session :=
  if s.doctor.socketId = none ∧ s.patient.socketId = none then
    { s with status := "ended" }
  else s

/-- The slot mutation performed by `addUserToSession` after role coercion:
set the slot, stamp `lastActivity`, and recompute `status`. -/
def attachSlot (s : Session) (role : String) (socketId : String) (now : Nat) :
    Session :=
  let s1 :=
    if role = "doctor" then
      { s with doctor := { s.doctor with socketId := some socketId, joinedAt := some now } }
    else
      { s with patient := { s.patient with socketId := some socketId, joinedAt := some now } }
  recomputeActive { s1 with metadata := { s1.metadata with lastActivity := now } }

/-- The role validation of `addUserToSession`: an unrecognized role string is
coerced to `patient`. -/
def roleCoerce (userRole : String) : String :=
  if userRole = "doctor" ∨ userRole = "patient" then userRole else "patient"

/-- `addUserToSession(sessionId, userRole, socketId)`: coerce an unknown role
to `patient`, attach the slot, record the reverse mapping in `sessionUsers`.
Returns the updated session (or `none` when the session id is unknown). -/
def addUserToSession (st : ServerState) (sessionId : String) (userRole : String)
    (socketId : String) (now : Nat) : Option Session × ServerState :=
  match mapGet st.activeSessions sessionId with
  | none => (none, st)
  | some s =>
      let s1 := attachSlot s (roleCoerce userRole) socketId now
      (some s1,
        { st with
            activeSessions := mapSet st.activeSessions sessionId s1
            sessionUsers := mapSet st.sessionUsers socketId sessionId })

/-- The session mutation performed by `removeUserFromSession`: clear every
slot holding this socket, stamp `lastActivity`, and set `status` to `ended`
when neither slot holds a connection any more. -/
def clearSlotsFor (s : Session) (socketId : String) (now : Nat) : Session :=
  let s1 :=
    if s.doctor.socketId = some socketId then
      { s with doctor := { s.doctor with socketId := none, joinedAt := none } }
    else s
  let s2 :=
    if s1.patient.socketId = some socketId then
      { s1 with patient := { s1.patient with socketId := none, joinedAt := none } }
    else s1
  recomputeEnded { s2 with metadata := { s2.metadata with lastActivity := now } }

/-- `removeUserFromSession(socketId)`: reverse-lookup the session, clear the
slots, drop the `sessionUsers` entry; `none` when the socket is not attached
or the recorded session no longer exists. -/
def removeUserFromSession (st : ServerState) (socketId : String) (now : Nat) :
    Option (String × Session) × ServerState :=
  match mapGet st.sessionUsers socketId with
  | none => (none, st)
  | some sessionId =>
      match mapGet st.activeSessions sessionId with
      | none => (none, st)
      | some s =>
          let s1 := clearSlotsFor s socketId now
          (some (sessionId, s1),
            { st with
                activeSessions := mapSet st.activeSessions sessionId s1
                sessionUsers := mapDelete st.sessionUsers socketId })

/-- `getSessionIdBySocketId(socketId)`. -/
def getSessionIdBySocketId (st : ServerState) (socketId : String) : Option String :=
  mapGet st.sessionUsers socketId

/-- `cleanupOldSessions(maxAgeHours = 24)`: drop sessions whose `createdAt`
age exceeds the threshold and whose `status` is `ended`; returns the cleaned
store and the number of sessions removed. -/
def cleanupOldSessionsList (now maxAge : Nat) :
    List (String × Session) → List (String × Session) × Nat
  | [] => ([], 0)
  | (sid, s) :: rest =>
      let (rest1, n) := cleanupOldSessionsList now maxAge rest
      if now - s.metadata.createdAt > maxAge ∧ s.status = "ended" then
        (rest1, n + 1)
      else ((sid, s) :: rest1, n)

/-- `cleanupOldSessions` on the whole server state. -/
def cleanupOldSessions (st : ServerState) (maxAgeHours : Nat) (now : Nat) :
    ServerState × Nat :=
  let maxAge := maxAgeHours * 60 * 60 * 1000
  let (kept, n) := cleanupOldSessionsList now maxAge st.activeSessions
  ({ st with activeSessions := kept }, n)

/-! ## Transcription pipeline (TranscriptionService, lines 324-813, and
MockAIService, lines 814-952) -/

/-- A transcription result in the shared shape every provider adapter and the
mock substitute produce (`text`, `confidence`, `speaker`, `provider`).
Provider-specific diagnostic arrays (words, segments, utterances, language)
are omitted; confidence is an integer percent. -/
structure TranscriptSegment where
  text : String
  confidencePct : Nat
  speaker : String
  provider : String
  deriving DecidableEq, Repr

/-- One buffered audio fragment (`{data, timestamp, speaker}`); audio bytes
are a `List Nat`. -/
structure AudioChunkRec where
  data : List Nat
  timestamp : Nat
  speaker : Option String
  deriving DecidableEq, Repr

/-- A per-session audio accumulator (`{chunks, lastProcessed, totalSize}`). -/
structure SessionBuffer where
  chunks : List AudioChunkRec
  lastProcessed : Nat
  totalSize : Nat
  deriving DecidableEq, Repr

/-- The `TranscriptionService.audioBuffer` map. -/
structure TransState where
  audioBuffer : List (String × SessionBuffer)
  deriving DecidableEq, Repr

/-- `config.transcription` settings (env-var driven, defaults 1048576 / 3000). -/
structure TransConfig where
  maxAudioChunkSize : Nat
  interval : Nat
  deriving DecidableEq, Repr

/-- The external world seen by the transcription pipeline: which API keys are
configured, the outcome of each provider call (as a function of the submitted
audio and speaker tag), the mock-mode switch, and the `Math.random` draw.
`openaiKeyPlaceholder` models `apiKey.includes('PASTE_YOUR_ACTUAL_..._HERE')`. -/
structure TransEnv where
  useMockTranscription : Bool
  openaiKeyPresent : Bool
  openaiKeyPlaceholder : Bool
  elevenlabsKeyPresent : Bool
  assemblyaiKeyPresent : Bool
  openaiCall : List Nat → Option String → Except String TranscriptSegment
  elevenlabsCall : List Nat → Option String → Except String TranscriptSegment
  assemblyaiCall : List Nat → Option String → Except String TranscriptSegment
  rand : Nat

/-- The fixed phrase set of `MockAIService.generateMockTranscription`. -/
def mockTranscriptions : List String :=
  [ "Hello, what brings you in today?",
    "I\x27ve been having chest pain for about three days now.",
    "Can you describe the pain? Is it sharp or dull?",
    "It\x27s more of a burning sensation, especially after I eat.",
    "Any radiation to your arms or jaw?",
    "No, it stays right in the center of my chest.",
    "Have you had any shortness of breath?",
    "No, just the burning pain.",
    "Let me examine you. Your heart sounds normal.",
    "That\x27s reassuring to hear.",
    "I think this might be acid reflux. I\x27ll prescribe something for that.",
    "Thank you, doctor. When should I follow up?" ]

/-- `MockAIService.generateMockTranscription(audioChunk, options)`: picks one
phrase by the random draw (the audio bytes are ignored by the source too) and
always succeeds with confidence 0.95 and provider `mock`. -/
def generateMockTranscription (rand : Nat) (_audio : List Nat)
    (speaker : Option String) : TranscriptSegment :=
  { text := mockTranscriptions.getD (rand % mockTranscriptions.length) ""
    confidencePct := 95
    speaker := speaker.getD "unknown"
    provider := "mock" }

/-- `transcribeWithOpenAI`: rejects immediately when no key was configured
(the `this.openai` guard), otherwise the outcome is the provider call. -/
def transcribeWithOpenAI (env : TransEnv) (audio : List Nat)
    (speaker : Option String) : Except String TranscriptSegment :=
  if !env.openaiKeyPresent then Except.error "OpenAI API key not configured"
  else env.openaiCall audio speaker

/-- `transcribeWithElevenLabs`: same shape for the ElevenLabs adapter. -/
def transcribeWithElevenLabs (env : TransEnv) (audio : List Nat)
    (speaker : Option String) : Except String TranscriptSegment :=
  if !env.elevenlabsKeyPresent then Except.error "ElevenLabs API key not configured"
  else env.elevenlabsCall audio speaker

/-- `transcribeWithAssemblyAI`: same shape for the AssemblyAI adapter. -/
def transcribeWithAssemblyAI (env : TransEnv) (audio : List Nat)
    (speaker : Option String) : Except String TranscriptSegment :=
  if !env.assemblyaiKeyPresent then Except.error "AssemblyAI API key not configured"
  else env.assemblyaiCall audio speaker

/-- The body of one iteration of the provider loop in
`transcribeBufferedAudio`: the `switch (provider)` with the inline
not-configured-OpenAI shortcut that returns the mock segment directly. -/
def attemptProvider (env : TransEnv) (audio : List Nat) (speaker : Option String)
    (p : String) : Except String TranscriptSegment :=
  if p = "openai" then
    if !env.openaiKeyPresent || env.openaiKeyPlaceholder then
      Except.ok (generateMockTranscription env.rand audio speaker)
    else transcribeWithOpenAI env audio speaker
  else if p = "elevenlabs" then transcribeWithElevenLabs env audio speaker
  else if p = "assemblyai" then transcribeWithAssemblyAI env audio speaker
  else Except.error ("Unsupported transcription provider: " ++ p)

/-- The provider loop of `transcribeBufferedAudio`: short-circuit on the
first success; on failure of the last provider (the constructed chains are
duplicate-free, so last position is `rest = []`) fall back to the mock, which
is also the fallback after the loop. -/
def tryProviders (env : TransEnv) (audio : List Nat) (speaker : Option String) :
    List String → Except String TranscriptSegment
  | [] => Except.ok (generateMockTranscription env.rand audio speaker)
  | p :: rest =>
      match attemptProvider env audio speaker p with
      | Except.ok seg => Except.ok seg
      | Except.error _ =>
          if rest.isEmpty then
            Except.ok (generateMockTranscription env.rand audio speaker)
          else tryProviders env audio speaker rest

/-- The provider chain built from `this.activeProvider`: the active provider
first, then the designated secondary for `elevenlabs`/`openai`. -/
def providerChainFor (activeProvider : String) : List String :=
  [activeProvider] ++
    (if activeProvider = "elevenlabs" then ["openai"]
     else if activeProvider = "openai" then ["elevenlabs"] else [])

/-- The gateway decision applied to one combined audio unit: the mock-mode
shortcut, then the provider chain with the mock as final fallback. -/
def transcribePipeline (env : TransEnv) (activeProvider : String)
    (audio : List Nat) (speaker : Option String) : Except String TranscriptSegment :=
  if env.useMockTranscription then
    Except.ok (generateMockTranscription env.rand audio speaker)
  else tryProviders env audio speaker (providerChainFor activeProvider)

/-- `transcribeBufferedAudio(sessionId)`: `ok none` models the early `null`
returns (no buffer / empty buffer); otherwise the buffered fragments are
concatenated in arrival order, tagged with the last fragment speaker, and
handed to the pipeline. Does not itself clear the buffer. -/
def transcribeBufferedAudio (env : TransEnv) (activeProvider : String)
    (st : TransState) (sessionId : String) : Except String (Option TranscriptSegment) :=
  match mapGet st.audioBuffer sessionId with
  | none => Except.ok none
  | some buf =>
      if buf.chunks.isEmpty then Except.ok none
      else
        let combined := (buf.chunks.map (fun c => c.data)).flatten
        let latestSpeaker := (buf.chunks.getLast?).bind (fun c => c.speaker)
        (transcribePipeline env activeProvider combined latestSpeaker).map some

/-- `processAudioChunk(audioChunk, options)`: mock-mode shortcut, buffer the
fragment, evaluate the three flush triggers, and on flush call
`transcribeBufferedAudio` and then reset the buffer; a rejected transcription
would propagate and skip the reset (the `catch` rethrows). -/
def processAudioChunk (env : TransEnv) (cfg : TransConfig) (activeProvider : String)
    (st : TransState) (audio : List Nat) (speaker : Option String)
    (sessionId : String) (timestamp now : Nat) :
    Except String (Option TranscriptSegment) × TransState :=
  if env.useMockTranscription then
    (Except.ok (some (generateMockTranscription env.rand audio speaker)), st)
  else
    let freshBuf : SessionBuffer := { chunks := [], lastProcessed := now, totalSize := 0 }
    let st1 :=
      if (mapGet st.audioBuffer sessionId).isSome then st
      else { st with audioBuffer := mapSet st.audioBuffer sessionId freshBuf }
    match mapGet st1.audioBuffer sessionId with
    | none => (Except.ok none, st1)
    | some buf =>
        let newChunk : AudioChunkRec :=
          { data := audio, timestamp := timestamp, speaker := speaker }
        let buf1 : SessionBuffer :=
          { buf with
              chunks := buf.chunks ++ [newChunk]
              totalSize := buf.totalSize + audio.length }
        let st2 := { st1 with audioBuffer := mapSet st1.audioBuffer sessionId buf1 }
        let shouldProcess :=
          buf1.totalSize ≥ cfg.maxAudioChunkSize ∨
          now - buf1.lastProcessed ≥ cfg.interval ∨
          buf1.chunks.length ≥ 3
        if shouldProcess then
          match transcribeBufferedAudio env activeProvider st2 sessionId with
          | Except.error e => (Except.error e, st2)
          | Except.ok r =>
              (Except.ok r,
                { st2 with audioBuffer := mapSet st2.audioBuffer sessionId freshBuf })
        else (Except.ok none, st2)

/-- The per-entry body of one `startPeriodicProcessing` tick: a buffer that
holds fragments and has waited more than 8000 ms is transcribed and, if the
call resolved, reset; a rejection is caught and leaves the buffer untouched. -/
def sweepBuf (env : TransEnv) (activeProvider : String) (st : TransState)
    (now : Nat) (sessionId : String) (buf : SessionBuffer) : SessionBuffer :=
  if ¬buf.chunks.isEmpty ∧ now - buf.lastProcessed > 8000 then
    match transcribeBufferedAudio env activeProvider st sessionId with
    | Except.error _ => buf
    | Except.ok _ => { chunks := [], lastProcessed := now, totalSize := 0 }
  else buf

/-- One tick of `startPeriodicProcessing`, applying `sweepBuf` to every
session buffer in the map. -/
def periodicBufferSweep (env : TransEnv) (activeProvider : String)
    (st : TransState) (now : Nat) : TransState :=
  { st with audioBuffer :=
      st.audioBuffer.map (fun e => (e.1, sweepBuf env activeProvider st now e.1 e.2)) }

/-! ## Socket.IO handlers (lines 953-1404)

Each handler is a function from the server state and the inbound message to
the new state plus the ordered list of emitted events.  Event timestamps are
dropped (they carry no information beyond the handler `now` parameter). -/

/-- Server-to-client events relevant to the handlers modelled here. -/
inductive Event where
  | errorMsg (msg : String)
  | userJoined (userRole userName : String)
  | sessionJoined (sessionId userRole : String)
      (otherUsers : List (String × String)) (transcript : List TranscriptEntry)
      (isRecording : Bool) (status : String)
  | recordingStarted (startedBy : String)
  | recordingStopped (stoppedBy : String) (duration : Nat) (transcriptLength : Nat)
  | merGenerated (doc : MerDoc)
  | merGenerationError (msg : String)
  deriving DecidableEq, Repr

/-- Where an event is delivered: one socket (`socket.emit` /
`io.to(socketId)`), a whole session room (`io.to(sessionId)`), or a room
minus the sender (`socket.to(sessionId)`). -/
inductive Emit where
  | toSocket (socketId : String) (ev : Event)
  | toRoom (room : String) (ev : Event)
  | toRoomExcept (room sender : String) (ev : Event)
  deriving DecidableEq, Repr

/-- Payload of `join-session`. -/
structure JoinData where
  sessionId : Option String
  userRole : Option String
  userName : Option String
  deriving DecidableEq, Repr

/-- Payload of the recording / MER commands. -/
structure CmdData where
  userRole : Option String
  userName : Option String
  deriving DecidableEq, Repr

/-- Outcome of the external `MERGeneratorService.generateMER` call as seen by
a handler invocation. -/
structure MerEnv where
  merResult : Except String MerDoc

/-- The `slice(-20)` applied to the transcript in the `session-joined`
payload: the last (at most) 20 entries in stored order. -/
def sliceLast20 (l : List TranscriptEntry) : List TranscriptEntry :=
  l.drop (l.length - 20)

/-- The falsy test `!field` on an optional string payload field
(`undefined` and the empty string are both falsy). -/
def strFalsy (v : Option String) : Bool :=
  v.getD "" = ""

/-- The `otherUsers` list built by the `join-session` handler. -/
def otherUsersFor (s : Session) (userRole : String) : List (String × String) :=
  (if s.doctor.socketId.isSome ∧ userRole ≠ "doctor" then
     [("doctor", (s.doctor.name).getD "")]
   else []) ++
  (if s.patient.socketId.isSome ∧ userRole ≠ "patient" then
     [("patient", (s.patient.name).getD "")]
   else [])

/-- The display-name back-fill of the `join-session` handler: a missing name
for the joiner's own role is set to the supplied user name. -/
def backfillName (session : Session) (userRole userName : String) : Session :=
  if userRole = "doctor" ∧ session.doctor.name = none then
    { session with doctor := { session.doctor with name := some userName } }
  else if userRole = "patient" ∧ session.patient.name = none then
    { session with patient := { session.patient with name := some userName } }
  else session

/-- The `join-session` handler: validate the payload, `createOrGetSession`
(note the source passes `userName` as the doctor-name argument and `userRole`
as the patient-name argument), back-fill missing display names, attach via
`addUserToSession`, then notify the room and send `session-joined` (with the
transcript truncated by `slice(-20)`) plus one `user-joined` per other user. -/
def joinSessionHandler (st : ServerState) (sender : String) (data : JoinData)
    (now : Nat) : ServerState × List Emit :=
  if strFalsy data.sessionId ∨ strFalsy data.userRole ∨ strFalsy data.userName then
    (st, [Emit.toSocket sender (Event.errorMsg "Missing required fields")])
  else
    let sessionId := data.sessionId.getD ""
    let userRole := data.userRole.getD ""
    let userName := data.userName.getD ""
    let (session, st1) := createOrGetSession st sessionId userName data.userRole now
    let session1 := backfillName session userRole userName
    let st2 := { st1 with activeSessions := mapSet st1.activeSessions sessionId session1 }
    match addUserToSession st2 sessionId userRole sender now with
    | (none, st3) => (st3, [Emit.toSocket sender (Event.errorMsg "Failed to join session")])
    | (some updated, st3) =>
        let otherUsers := otherUsersFor updated userRole
        (st3,
          [Emit.toRoomExcept sessionId sender (Event.userJoined userRole userName),
           Emit.toSocket sender
             (Event.sessionJoined sessionId userRole otherUsers
               (sliceLast20 updated.transcript) updated.isRecording updated.status)] ++
          otherUsers.map (fun u => Emit.toSocket sender (Event.userJoined u.1 u.2)))

/-- The `start-recording` handler: silently drop unattached senders, re-add
the sender under the claimed role (default `doctor`), reject non-doctors,
then unconditionally set `isRecording`, overwrite `status` with `recording`,
stamp `recordingStartTime` and broadcast `recording-started`.  There is no
already-recording guard. -/
def startRecordingHandler (st : ServerState) (sender : String) (data : CmdData)
    (now : Nat) : ServerState × List Emit :=
  match removeUserFromSession st sender now with
  | (none, _) => (st, [])
  | (some (sessionId, _), st1) =>
      match addUserToSession st1 sessionId (data.userRole.getD "doctor") sender now with
      | (none, st2) => (st2, [])
      | (some sess, st2) =>
          if data.userRole ≠ some "doctor" then
            (st2, [Emit.toSocket sender (Event.errorMsg "Only doctors can start recording")])
          else
            let sess1 := { sess with isRecording := true, status := "recording",
                                     recordingStartTime := some now }
            ({ st2 with activeSessions := mapSet st2.activeSessions sessionId sess1 },
             [Emit.toRoom sessionId (Event.recordingStarted (data.userName.getD "Doctor"))])

/-- The `stop-recording` handler: after the same re-attach dance, reject
non-doctors, reject when not recording, flip the session to `completed`,
await MER generation when a transcript exists (delivering `mer-generated` to
the doctor slot socket, or `mer-generation-error` to the sender on failure),
and only then broadcast `recording-stopped`. -/
def stopRecordingHandler (st : ServerState) (sender : String) (data : CmdData)
    (env : MerEnv) (now : Nat) : ServerState × List Emit :=
  match removeUserFromSession st sender now with
  | (none, _) => (st, [])
  | (some (sessionId, _), st1) =>
      match addUserToSession st1 sessionId (data.userRole.getD "doctor") sender now with
      | (none, st2) => (st2, [])
      | (some sess, st2) =>
          if data.userRole ≠ some "doctor" then
            (st2, [Emit.toSocket sender (Event.errorMsg "Only doctors can stop recording")])
          else if sess.isRecording = false then
            (st2, [Emit.toSocket sender (Event.errorMsg "Session is not currently recording")])
          else
            let sess1 := { sess with isRecording := false, status := "completed",
                                     recordingEndTime := some now }
            let st3 := { st2 with activeSessions := mapSet st2.activeSessions sessionId sess1 }
            let stoppedEvt :=
              Emit.toRoom sessionId
                (Event.recordingStopped (data.userName.getD "Doctor")
                  (now - sess1.recordingStartTime.getD 0) sess1.transcript.length)
            if sess1.transcript.length > 0 then
              match env.merResult with
              | Except.ok doc =>
                  let sess2 := { sess1 with merDocument := some doc }
                  let st4 := { st3 with activeSessions := mapSet st3.activeSessions sessionId sess2 }
                  match sess2.doctor.socketId with
                  | some dsock =>
                      (st4, [Emit.toSocket dsock (Event.merGenerated doc), stoppedEvt])
                  | none => (st4, [stoppedEvt])
              | Except.error _ =>
                  (st3,
                   [Emit.toSocket sender
                      (Event.merGenerationError "Failed to generate MER document automatically"),
                    stoppedEvt])
            else (st3, [stoppedEvt])

/-- The `generate-mer` handler: re-attach dance, doctor-only guard, empty
transcript guard, then the MER call with the result stored on the session and
`mer-generated` emitted to the requesting socket. -/
def generateMerHandler (st : ServerState) (sender : String) (data : CmdData)
    (env : MerEnv) (now : Nat) : ServerState × List Emit :=
  match removeUserFromSession st sender now with
  | (none, _) => (st, [])
  | (some (sessionId, _), st1) =>
      match addUserToSession st1 sessionId (data.userRole.getD "doctor") sender now with
      | (none, st2) => (st2, [])
      | (some sess, st2) =>
          if data.userRole ≠ some "doctor" then
            (st2, [Emit.toSocket sender (Event.errorMsg "Only doctors can generate MER documents")])
          else if sess.transcript.length = 0 then
            (st2, [Emit.toSocket sender (Event.errorMsg "No transcript available for MER generation")])
          else
            match env.merResult with
            | Except.ok doc =>
                let sess1 := { sess with merDocument := some doc }
                ({ st2 with activeSessions := mapSet st2.activeSessions sessionId sess1 },
                 [Emit.toSocket sender (Event.merGenerated doc)])
            | Except.error _ =>
                (st2, [Emit.toSocket sender (Event.merGenerationError "Failed to generate MER document")])

/-! ## Helper lemmas about the embedded operations -/

theorem recomputeActive_fields (s : Session) :
    (recomputeActive s).doctor = s.doctor ∧
    (recomputeActive s).patient = s.patient ∧
    (recomputeActive s).isRecording = s.isRecording ∧
    (recomputeActive s).transcript = s.transcript ∧
    (recomputeActive s).recordingStartTime = s.recordingStartTime ∧
    (recomputeActive s).recordingEndTime = s.recordingEndTime ∧
    (recomputeActive s).merDocument = s.merDocument := by
  unfold recomputeActive
  split <;> simp

theorem recomputeActive_status_of_both (s : Session)
    (h1 : s.doctor.socketId.isSome) (h2 : s.patient.socketId.isSome) :
    (recomputeActive s).status = "active" := by
  unfold recomputeActive
  rw [if_pos ⟨h1, h2⟩]

theorem recomputeEnded_fields (s : Session) :
    (recomputeEnded s).doctor = s.doctor ∧
    (recomputeEnded s).patient = s.patient ∧
    (recomputeEnded s).isRecording = s.isRecording ∧
    (recomputeEnded s).transcript = s.transcript ∧
    (recomputeEnded s).recordingStartTime = s.recordingStartTime ∧
    (recomputeEnded s).recordingEndTime = s.recordingEndTime ∧
    (recomputeEnded s).merDocument = s.merDocument := by
  unfold recomputeEnded
  split <;> simp

theorem recomputeEnded_status_of_empty (s : Session)
    (h1 : s.doctor.socketId = none) (h2 : s.patient.socketId = none) :
    (recomputeEnded s).status = "ended" := by
  unfold recomputeEnded
  rw [if_pos ⟨h1, h2⟩]

theorem attachSlot_doctor_socketId (s : Session) (cid : String) (now : Nat) :
    (attachSlot s "doctor" cid now).doctor.socketId = some cid := by
  unfold attachSlot
  dsimp only
  rw [(recomputeActive_fields _).1]
  simp

theorem attachSlot_doctor_patientSlot (s : Session) (cid : String) (now : Nat) :
    (attachSlot s "doctor" cid now).patient = s.patient := by
  unfold attachSlot
  dsimp only
  rw [(recomputeActive_fields _).2.1]
  simp

theorem attachSlot_preserves (s : Session) (role cid : String) (now : Nat) :
    (attachSlot s role cid now).isRecording = s.isRecording ∧
    (attachSlot s role cid now).transcript = s.transcript ∧
    (attachSlot s role cid now).recordingStartTime = s.recordingStartTime ∧
    (attachSlot s role cid now).recordingEndTime = s.recordingEndTime ∧
    (attachSlot s role cid now).merDocument = s.merDocument := by
  unfold attachSlot
  dsimp only
  refine ⟨?_, ?_, ?_, ?_, ?_⟩ <;>
    simp only [recomputeActive_fields] <;> split <;> simp

theorem attachSlot_active_of_both (s : Session) (role cid : String) (now : Nat)
    (h1 : (attachSlot s role cid now).doctor.socketId.isSome)
    (h2 : (attachSlot s role cid now).patient.socketId.isSome) :
    (attachSlot s role cid now).status = "active" := by
  unfold attachSlot at h1 h2 ⊢
  dsimp only at h1 h2 ⊢
  rw [(recomputeActive_fields _).1] at h1
  rw [(recomputeActive_fields _).2.1] at h2
  exact recomputeActive_status_of_both _ h1 h2

theorem clearSlotsFor_no_ref (s : Session) (cid : String) (now : Nat) :
    (clearSlotsFor s cid now).doctor.socketId ≠ some cid ∧
    (clearSlotsFor s cid now).patient.socketId ≠ some cid := by
  unfold clearSlotsFor
  dsimp only
  rw [ne_eq, (recomputeEnded_fields _).1, ne_eq, (recomputeEnded_fields _).2.1]
  constructor
  · split <;> split <;> simp_all
  · split <;> split <;> simp_all

theorem clearSlotsFor_preserves (s : Session) (cid : String) (now : Nat) :
    (clearSlotsFor s cid now).isRecording = s.isRecording ∧
    (clearSlotsFor s cid now).transcript = s.transcript ∧
    (clearSlotsFor s cid now).recordingStartTime = s.recordingStartTime ∧
    (clearSlotsFor s cid now).recordingEndTime = s.recordingEndTime ∧
    (clearSlotsFor s cid now).merDocument = s.merDocument := by
  unfold clearSlotsFor
  dsimp only
  refine ⟨?_, ?_, ?_, ?_, ?_⟩ <;>
    simp only [recomputeEnded_fields] <;> split <;> split <;> simp

theorem clearSlotsFor_ended_of_empty (s : Session) (cid : String) (now : Nat)
    (h1 : (clearSlotsFor s cid now).doctor.socketId = none)
    (h2 : (clearSlotsFor s cid now).patient.socketId = none) :
    (clearSlotsFor s cid now).status = "ended" := by
  unfold clearSlotsFor at h1 h2 ⊢
  dsimp only at h1 h2 ⊢
  rw [(recomputeEnded_fields _).1] at h1
  rw [(recomputeEnded_fields _).2.1] at h2
  exact recomputeEnded_status_of_empty _ h1 h2

/-- Characterisation of a successful `removeUserFromSession`: the returned
session no longer references the socket in either slot, and is the value now
stored under the returned session id. -/
theorem removeUser_characterize (st : ServerState) (cid : String) (now : Nat)
    (sid : String) (s1 : Session) (st1 : ServerState)
    (h : removeUserFromSession st cid now = ((some (sid, s1), st1) :
          Option (String × Session) × ServerState)) :
    s1.doctor.socketId ≠ some cid ∧ s1.patient.socketId ≠ some cid ∧
    mapGet st1.activeSessions sid = some s1 ∧
    st1.sessionUsers = mapDelete st.sessionUsers cid ∧
    ∃ s0, mapGet st.activeSessions sid = some s0 ∧ s1 = clearSlotsFor s0 cid now := by
  unfold removeUserFromSession at h
  cases hu : mapGet st.sessionUsers cid with
  | none =>
      rw [hu] at h
      exact absurd (congrArg Prod.fst h) (by simp)
  | some sid0 =>
      rw [hu] at h
      dsimp only at h
      cases ha : mapGet st.activeSessions sid0 with
      | none =>
          rw [ha] at h
          exact absurd (congrArg Prod.fst h) (by simp)
      | some s0 =>
          rw [ha] at h
          dsimp only at h
          have h1 := congrArg Prod.fst h
          have h2 := congrArg Prod.snd h
          simp only at h1 h2
          have hpair := Option.some.inj h1
          have hsid : sid0 = sid := congrArg Prod.fst hpair
          have hs1 : clearSlotsFor s0 cid now = s1 := congrArg Prod.snd hpair
          subst hsid
          refine ⟨?_, ?_, ?_, ?_, s0, ha, hs1.symm⟩
          · rw [← hs1]
            exact (clearSlotsFor_no_ref s0 cid now).1
          · rw [← hs1]
            exact (clearSlotsFor_no_ref s0 cid now).2
          · rw [← h2, hs1]
            exact mapGet_mapSet_self _ _ _
          · rw [← h2]

/-- Characterisation of a successful `addUserToSession`. -/
theorem addUser_characterize (st : ServerState) (sid role cid : String) (now : Nat)
    (sess : Session) (st2 : ServerState)
    (h : addUserToSession st sid role cid now = ((some sess, st2) :
          Option Session × ServerState)) :
    mapGet st2.activeSessions sid = some sess ∧
    st2.sessionUsers = mapSet st.sessionUsers cid sid ∧
    ∃ s0, mapGet st.activeSessions sid = some s0 ∧
      sess = attachSlot s0 (roleCoerce role) cid now := by
  unfold addUserToSession at h
  split at h
  · exact absurd (congrArg Prod.fst h) (by simp)
  · next s0 heq =>
      have h1 := congrArg Prod.fst h
      have h2 := congrArg Prod.snd h
      simp only at h1 h2
      have hs : attachSlot s0 (roleCoerce role) cid now = sess := Option.some.inj h1
      refine ⟨?_, ?_, s0, heq, hs.symm⟩
      · rw [← h2, hs]
        exact mapGet_mapSet_self _ _ _
      · rw [← h2]

/-- The provider loop of the gateway can only resolve, never reject:
every branch of the loop body either succeeds or falls through to the mock. -/
theorem tryProviders_ok (env : TransEnv) (audio : List Nat) (speaker : Option String)
    (chain : List String) :
    ∃ seg, tryProviders env audio speaker chain = Except.ok seg := by
  induction chain with
  | nil => exact ⟨_, rfl⟩
  | cons p rest ih =>
      unfold tryProviders
      cases hA : attemptProvider env audio speaker p with
      | ok seg => exact ⟨seg, rfl⟩
      | error e =>
          by_cases hr : rest.isEmpty
          · exact ⟨generateMockTranscription env.rand audio speaker, by simp [hr]⟩
          · obtain ⟨seg, hseg⟩ := ih
            exact ⟨seg, by simp [hr, hseg]⟩

/-- The whole pipeline decision can only resolve. -/
theorem transcribePipeline_ok (env : TransEnv) (ap : String) (audio : List Nat)
    (speaker : Option String) :
    ∃ seg, transcribePipeline env ap audio speaker = Except.ok seg := by
  unfold transcribePipeline
  split
  · exact ⟨_, rfl⟩
  · exact tryProviders_ok env audio speaker _

/-- `transcribeBufferedAudio` can only resolve (to `none` or a segment). -/
theorem transcribeBufferedAudio_ok (env : TransEnv) (ap : String)
    (st : TransState) (sid : String) :
    ∃ r, transcribeBufferedAudio env ap st sid = Except.ok r := by
  unfold transcribeBufferedAudio
  cases hb : mapGet st.audioBuffer sid with
  | none => exact ⟨none, rfl⟩
  | some buf =>
      dsimp only
      by_cases he : buf.chunks.isEmpty
      · exact ⟨none, by rw [if_pos he]⟩
      · rw [if_neg he]
        obtain ⟨seg, hseg⟩ := transcribePipeline_ok env ap
          ((buf.chunks.map (fun c => c.data)).flatten)
          (buf.chunks.getLast?.bind (fun c => c.speaker))
        exact ⟨some seg, by rw [hseg]; rfl⟩

/-- Lookup through a key-preserving map over the association list. -/
theorem mapGet_map_entries {β : Type} (g : String → β → β) (l : List (String × β))
    (k : String) :
    mapGet (l.map (fun e => (e.1, g e.1 e.2))) k = (mapGet l k).map (g k) := by
  induction l with
  | nil => simp [mapGet]
  | cons hd tl ih =>
      obtain ⟨k1, v1⟩ := hd
      by_cases h : k1 = k
      · subst h
        simp [mapGet]
      · simp [mapGet, h, ih]

/-- Lookup survives a filter that keeps the looked-up entry. -/
theorem mapGet_filter {β : Type} (p : String × β → Bool) (l : List (String × β))
    (k : String) (v : β) (h : mapGet l k = some v) (hp : p (k, v) = true) :
    mapGet (l.filter p) k = some v := by
  induction l with
  | nil => simp [mapGet] at h
  | cons hd tl ih =>
      obtain ⟨k1, v1⟩ := hd
      by_cases hk : k1 = k
      · subst hk
        simp only [mapGet, if_pos rfl] at h
        obtain rfl : v1 = v := Option.some.inj h
        simp [List.filter, hp, mapGet]
      · simp only [mapGet, if_neg hk] at h
        cases hq : p (k1, v1) <;> simp [List.filter, hq, mapGet, hk, ih h]

theorem sliceLast20_length_le (l : List TranscriptEntry) :
    (sliceLast20 l).length ≤ 20 := by
  unfold sliceLast20
  simp only [List.length_drop]
  omega

theorem sliceLast20_lt_of_long (l : List TranscriptEntry) (h : l.length > 20) :
    (sliceLast20 l).length < l.length := by
  unfold sliceLast20
  simp only [List.length_drop]
  omega

/-! ## Claim C1: session status versus slot occupancy -/

/-- A throwaway session used only as the `Option.getD` default when naming
the result of a concrete operation that is known to succeed. -/
def sessDefault : Session :=
  (createOrGetSession { activeSessions := [], sessionUsers := [] } "x" "x" none 0).1

/-- The concrete attach/detach trace refuting C1 as stated: create a session,
attach a doctor and a patient, then detach the patient. -/
def c1State : ServerState :=
  let st0 : ServerState := { activeSessions := [], sessionUsers := [] }
  let st1 := (createOrGetSession st0 "s1" "Alice" (some "doctor") 0).2
  let st2 := (addUserToSession st1 "s1" "doctor" "D" 1).2
  let st3 := (addUserToSession st2 "s1" "patient" "P" 2).2
  (removeUserFromSession st3 "P" 3).2

/-- C1 (counterexample): after the trace `join doctor, join patient, patient
detaches`, the session still reports `status = "active"` although the patient
slot holds no live connection — so `status == active` does not hold iff both
slots have a live connection after every detach, refuting the claim as
stated. -/
theorem c1_counterexample :
    (mapGet c1State.activeSessions "s1").map (fun s => s.status) = some "active" ∧
    (mapGet c1State.activeSessions "s1").map (fun s => s.patient.socketId) = some none ∧
    (mapGet c1State.activeSessions "s1").map (fun s => s.doctor.socketId) = some (some "D") := by
  decide

/-- C1 (amended): only the forward directions survive.  Immediately after an
attach, if both slots hold a live connection then the status is `active`;
immediately after a detach, if neither slot holds a live connection then the
status is `ended`.  The converse directions fail (a detach that leaves one
slot occupied keeps the stale status, and recording commands overwrite the
status with `recording` / `completed`), as the counterexample shows. -/
theorem c1_status_forward_only :
    (∀ st sid role cid now s st1,
       addUserToSession st sid role cid now = ((some s, st1) :
         Option Session × ServerState) →
       s.doctor.socketId.isSome → s.patient.socketId.isSome →
       s.status = "active") ∧
    (∀ st cid now sid s st1,
       removeUserFromSession st cid now = ((some (sid, s), st1) :
         Option (String × Session) × ServerState) →
       s.doctor.socketId = none → s.patient.socketId = none →
       s.status = "ended") := by
  constructor
  · intro st sid role cid now s st1 h hd hp
    obtain ⟨-, -, s0, -, hs⟩ := addUser_characterize st sid role cid now s st1 h
    subst hs
    exact attachSlot_active_of_both s0 (roleCoerce role) cid now hd hp
  · intro st cid now sid s st1 h hd hp
    obtain ⟨-, -, -, -, s0, -, hs⟩ := removeUser_characterize st cid now sid s st1 h
    subst hs
    exact clearSlotsFor_ended_of_empty s0 cid now hd hp

/-- Base state for the C1 witness: a session with only the patient attached. -/
def c1WitnessBase : ServerState :=
  let st0 : ServerState := { activeSessions := [], sessionUsers := [] }
  let st1 := (createOrGetSession st0 "s1" "Alice" (some "doctor") 0).2
  (addUserToSession st1 "s1" "patient" "P" 1).2

/-- Base state for the C1 witness detach part: only the doctor attached. -/
def c1DetachBase : ServerState :=
  let st0 : ServerState := { activeSessions := [], sessionUsers := [] }
  let st1 := (createOrGetSession st0 "s1" "Alice" (some "doctor") 0).2
  (addUserToSession st1 "s1" "doctor" "D" 1).2

/-- Witness for `c1_status_forward_only` at a concrete state: attaching the
doctor while the patient is already connected yields `status = "active"`, and
detaching the last participant yields `status = "ended"`. -/
theorem c1_status_forward_only_witness :
    ((addUserToSession c1WitnessBase "s1" "doctor" "D" 2).1.getD sessDefault).status
      = "active" ∧
    (((removeUserFromSession c1DetachBase "D" 3).1.getD ("", sessDefault)).2).status
      = "ended" := by
  constructor
  · exact c1_status_forward_only.1 c1WitnessBase "s1" "doctor" "D" 2
      ((addUserToSession c1WitnessBase "s1" "doctor" "D" 2).1.getD sessDefault)
      (addUserToSession c1WitnessBase "s1" "doctor" "D" 2).2
      (by decide) (by decide) (by decide)
  · exact c1_status_forward_only.2 c1DetachBase "D" 3 "s1"
      (((removeUserFromSession c1DetachBase "D" 3).1.getD ("", sessDefault)).2)
      (removeUserFromSession c1DetachBase "D" 3).2
      (by decide) (by decide) (by decide)

/-! ## Claim C8: the periodic inactivity sweep -/

theorem cleanupOldSessionsList_eq_filter (now maxAge : Nat) :
    ∀ l : List (String × Session),
      (cleanupOldSessionsList now maxAge l).1 =
        l.filter (fun e =>
          !decide (now - e.2.metadata.createdAt > maxAge ∧ e.2.status = "ended")) := by
  intro l
  induction l with
  | nil => rfl
  | cons hd tl ih =>
      obtain ⟨sid, s⟩ := hd
      unfold cleanupOldSessionsList
      by_cases hc : now - s.metadata.createdAt > maxAge ∧ s.status = "ended"
      · simp [hc, ih]
      · have hp : (!decide (now - s.metadata.createdAt > maxAge ∧ s.status = "ended")) = true := by
          simp [hc]
        simp only [List.filter_cons] at *
        simp [hc, ih, hp]

/-- The concrete state refuting C8 as stated: one `ended` session created at
time 0 whose `lastActivity` is the current instant. -/
def c8State : ServerState :=
  { activeSessions :=
      [("old",
        { id := "old"
          doctor := { name := some "Alice", socketId := none, joinedAt := none }
          patient := { name := none, socketId := none, joinedAt := none }
          status := "ended"
          transcript := []
          isRecording := false
          merDocument := none
          recordingStartTime := none
          recordingEndTime := none
          metadata := { createdAt := 0, lastActivity := 86400001,
                        recordingStartTime := none, recordingEndTime := none } })]
    sessionUsers := [] }

/-- C8 (counterexample): at `now = 86400001` with a 24-hour threshold the
sweep removes the session `old` even though its `lastActivity` age is 0 ms,
far below the threshold — the sweep ages sessions by `createdAt`, not by
`lastActivity` as the claim states. -/
theorem c8_counterexample :
    (mapGet c8State.activeSessions "old").map
        (fun s => 86400001 - s.metadata.lastActivity ≤ 24 * 60 * 60 * 1000) = some True ∧
    mapGet (cleanupOldSessions c8State 24 86400001).1.activeSessions "old" = none := by
  constructor
  · simp [c8State, mapGet]
  · decide

/-- C8 (amended): the sweep removes exactly the sessions whose `status` is
`ended` and whose `createdAt` (not `lastActivity`) age strictly exceeds the
threshold; sessions that are not `ended` are never removed. -/
theorem c8_cleanup_by_createdAt :
    (∀ st h now, (cleanupOldSessions st h now).1.activeSessions =
       st.activeSessions.filter (fun e =>
         !decide (now - e.2.metadata.createdAt > h * 60 * 60 * 1000 ∧
                  e.2.status = "ended"))) ∧
    (∀ st h now sid s, mapGet st.activeSessions sid = some s →
       s.status ≠ "ended" →
       mapGet (cleanupOldSessions st h now).1.activeSessions sid = some s) := by
  have key : ∀ st h now, (cleanupOldSessions st h now).1.activeSessions =
      st.activeSessions.filter (fun e =>
        !decide (now - e.2.metadata.createdAt > h * 60 * 60 * 1000 ∧
                 e.2.status = "ended")) := by
    intro st h now
    unfold cleanupOldSessions
    exact cleanupOldSessionsList_eq_filter now (h * 60 * 60 * 1000) st.activeSessions
  refine ⟨key, ?_⟩
  intro st h now sid s hget hstat
  rw [key]
  exact mapGet_filter _ _ _ _ hget (by simp [hstat])

/-- Witness for `c8_cleanup_by_createdAt` on a concrete store: a session that
is merely idle (status `waiting`) survives a sweep far past the threshold. -/
theorem c8_cleanup_by_createdAt_witness :
    mapGet (cleanupOldSessions c1WitnessBase 24 999999999).1.activeSessions "s1" =
      mapGet c1WitnessBase.activeSessions "s1" := by
  have h := c8_cleanup_by_createdAt.2 c1WitnessBase 24 999999999 "s1"
    ((mapGet c1WitnessBase.activeSessions "s1").getD sessDefault)
    (by decide) (by decide)
  rw [h]
  decide

/-! ## Claim C10: socket-to-session reverse lookup -/

/-- C10 (confirmed): after a successful `addUserToSession`, looking the
socket up through `getSessionIdBySocketId` returns exactly that session id;
consequently a later attach of the same socket to another session overwrites
the earlier mapping, so each socket maps to at most one session. -/
theorem c10_socket_lookup_consistent :
    (∀ st sid role cid now s st1,
       addUserToSession st sid role cid now = ((some s, st1) :
         Option Session × ServerState) →
       getSessionIdBySocketId st1 cid = some sid) ∧
    (∀ st cid sid1 role1 now1 sid2 role2 now2 s1 st1 s2 st2,
       addUserToSession st sid1 role1 cid now1 = ((some s1, st1) :
         Option Session × ServerState) →
       addUserToSession st1 sid2 role2 cid now2 = ((some s2, st2) :
         Option Session × ServerState) →
       getSessionIdBySocketId st2 cid = some sid2) := by
  have key : ∀ st sid role cid now s st1,
      addUserToSession st sid role cid now = ((some s, st1) :
        Option Session × ServerState) →
      getSessionIdBySocketId st1 cid = some sid := by
    intro st sid role cid now s st1 h
    obtain ⟨-, hsu, -⟩ := addUser_characterize st sid role cid now s st1 h
    unfold getSessionIdBySocketId
    rw [hsu]
    exact mapGet_mapSet_self _ _ _
  exact ⟨key, fun st cid sid1 role1 now1 sid2 role2 now2 s1 st1 s2 st2 h1 h2 =>
    key st1 sid2 role2 cid now2 s2 st2 h2⟩

/-- A store with two sessions for the C10 witness. -/
def c10Base : ServerState :=
  let st0 : ServerState := { activeSessions := [], sessionUsers := [] }
  let st1 := (createOrGetSession st0 "s1" "Alice" none 0).2
  (createOrGetSession st1 "s2" "Carol" none 0).2

/-- Witness for `c10_socket_lookup_consistent`: attaching socket `C` to `s1`
and then to `s2` leaves the reverse map pointing at `s2`. -/
theorem c10_socket_lookup_consistent_witness :
    getSessionIdBySocketId
      (addUserToSession (addUserToSession c10Base "s1" "doctor" "C" 1).2
        "s2" "doctor" "C" 2).2 "C" = some "s2" := by
  exact c10_socket_lookup_consistent.2 c10Base "C" "s1" "doctor" 1 "s2" "doctor" 2
    ((addUserToSession c10Base "s1" "doctor" "C" 1).1.getD sessDefault)
    (addUserToSession c10Base "s1" "doctor" "C" 1).2
    ((addUserToSession (addUserToSession c10Base "s1" "doctor" "C" 1).2
        "s2" "doctor" "C" 2).1.getD sessDefault)
    (addUserToSession (addUserToSession c10Base "s1" "doctor" "C" 1).2
        "s2" "doctor" "C" 2).2
    (by decide) (by decide)

/-! ## Claim C2: the transcription gateway never fails past the caller -/

/-- Every provider fails: a provider that is not configured counts as an
immediate failure, a configured provider's call rejects on every input.  For
OpenAI the gateway also treats a placeholder key as not configured. -/
def allProvidersFail (env : TransEnv) : Prop :=
  (env.openaiKeyPresent = false ∨ env.openaiKeyPlaceholder = true ∨
     ∀ a s, ∃ e, env.openaiCall a s = Except.error e) ∧
  (env.elevenlabsKeyPresent = false ∨
     ∀ a s, ∃ e, env.elevenlabsCall a s = Except.error e) ∧
  (env.assemblyaiKeyPresent = false ∨
     ∀ a s, ∃ e, env.assemblyaiCall a s = Except.error e)

theorem attemptProvider_fail_or_mock (env : TransEnv) (hf : allProvidersFail env)
    (audio : List Nat) (speaker : Option String) (p : String) :
    attemptProvider env audio speaker p =
      Except.ok (generateMockTranscription env.rand audio speaker) ∨
    ∃ e, attemptProvider env audio speaker p = Except.error e := by
  unfold attemptProvider
  by_cases hp : p = "openai"
  · rw [if_pos hp]
    by_cases hk : (!env.openaiKeyPresent || env.openaiKeyPlaceholder) = true
    · left
      rw [if_pos hk]
    · right
      rw [if_neg hk]
      have hkp : env.openaiKeyPresent = true := by
        cases hv : env.openaiKeyPresent
        · rw [hv] at hk
          simp at hk
        · rfl
      have hpl : env.openaiKeyPlaceholder = false := by
        cases hv : env.openaiKeyPlaceholder
        · rfl
        · rw [hv] at hk
          simp at hk
      unfold transcribeWithOpenAI
      rw [hkp]
      simp only [Bool.not_true, Bool.false_eq_true, if_false]
      rcases hf.1 with hc | hc | hc
      · rw [hkp] at hc
        exact absurd hc (by simp)
      · rw [hpl] at hc
        exact absurd hc (by simp)
      · exact hc audio speaker
  · rw [if_neg hp]
    by_cases he : p = "elevenlabs"
    · rw [if_pos he]
      unfold transcribeWithElevenLabs
      by_cases hk : env.elevenlabsKeyPresent = true
      · rw [hk]
        simp only [Bool.not_true, Bool.false_eq_true, if_false]
        rcases hf.2.1 with hc | hc
        · rw [hk] at hc
          exact absurd hc (by simp)
        · exact Or.inr (hc audio speaker)
      · right
        have : env.elevenlabsKeyPresent = false := by
          cases hv : env.elevenlabsKeyPresent
          · rfl
          · exact absurd hv hk
        rw [this]
        exact ⟨_, rfl⟩
    · rw [if_neg he]
      by_cases ha : p = "assemblyai"
      · rw [if_pos ha]
        unfold transcribeWithAssemblyAI
        by_cases hk : env.assemblyaiKeyPresent = true
        · rw [hk]
          simp only [Bool.not_true, Bool.false_eq_true, if_false]
          rcases hf.2.2 with hc | hc
          · rw [hk] at hc
            exact absurd hc (by simp)
          · exact Or.inr (hc audio speaker)
        · right
          have : env.assemblyaiKeyPresent = false := by
            cases hv : env.assemblyaiKeyPresent
            · rfl
            · exact absurd hv hk
          rw [this]
          exact ⟨_, rfl⟩
      · rw [if_neg ha]
        exact Or.inr ⟨_, rfl⟩

theorem tryProviders_all_fail (env : TransEnv) (hf : allProvidersFail env)
    (audio : List Nat) (speaker : Option String) :
    ∀ chain : List String, chain ≠ [] →
      tryProviders env audio speaker chain =
        Except.ok (generateMockTranscription env.rand audio speaker) := by
  intro chain
  induction chain with
  | nil => intro h; exact absurd rfl h
  | cons p rest ih =>
      intro _
      unfold tryProviders
      rcases attemptProvider_fail_or_mock env hf audio speaker p with hm | ⟨e, he⟩
      · rw [hm]
      · rw [he]
        by_cases hr : rest.isEmpty
        · simp [hr]
        · have hne : rest ≠ [] := by
            cases rest
            · simp at hr
            · exact fun hcon => List.noConfusion hcon
          simp [hr, ih hne]

theorem generateMock_text_mem (rand : Nat) (audio : List Nat)
    (speaker : Option String) :
    (generateMockTranscription rand audio speaker).text ∈ mockTranscriptions := by
  unfold generateMockTranscription
  dsimp only
  have hlen : rand % mockTranscriptions.length < mockTranscriptions.length :=
    Nat.mod_lt _ (by decide)
  rw [List.getD_eq_getElem mockTranscriptions "" hlen]
  exact List.getElem_mem hlen

/-- C2 (confirmed): `transcribeBufferedAudio` never rejects, and whenever
every configured provider fails (not-configured counting as immediate
failure) it resolves with the local mock segment built over the buffered
fragments concatenated in order and tagged with the latest speaker; the
segment's text comes from the fixed phrase set and its provider is `mock`. -/
theorem c2_gateway_never_fails (env : TransEnv) (ap : String) (st : TransState)
    (sid : String) :
    (∃ r, transcribeBufferedAudio env ap st sid = Except.ok r) ∧
    (allProvidersFail env →
      ∀ buf, mapGet st.audioBuffer sid = some buf → buf.chunks ≠ [] →
        transcribeBufferedAudio env ap st sid =
          Except.ok (some (generateMockTranscription env.rand
            ((buf.chunks.map (fun c => c.data)).flatten)
            (buf.chunks.getLast?.bind (fun c => c.speaker)))) ∧
        (generateMockTranscription env.rand
            ((buf.chunks.map (fun c => c.data)).flatten)
            (buf.chunks.getLast?.bind (fun c => c.speaker))).provider = "mock" ∧
        (generateMockTranscription env.rand
            ((buf.chunks.map (fun c => c.data)).flatten)
            (buf.chunks.getLast?.bind (fun c => c.speaker))).text
          ∈ mockTranscriptions) := by
  refine ⟨transcribeBufferedAudio_ok env ap st sid, ?_⟩
  intro hf buf hbuf hne
  have hpipe : transcribePipeline env ap
      ((buf.chunks.map (fun c => c.data)).flatten)
      (buf.chunks.getLast?.bind (fun c => c.speaker)) =
      Except.ok (generateMockTranscription env.rand
        ((buf.chunks.map (fun c => c.data)).flatten)
        (buf.chunks.getLast?.bind (fun c => c.speaker))) := by
    unfold transcribePipeline
    split
    · rfl
    · exact tryProviders_all_fail env hf _ _ (providerChainFor ap)
        (by unfold providerChainFor; exact fun hcon => List.noConfusion hcon)
  refine ⟨?_, rfl, generateMock_text_mem _ _ _⟩
  unfold transcribeBufferedAudio
  rw [hbuf]
  dsimp only
  rw [if_neg (by simpa [List.isEmpty_iff] using hne)]
  rw [hpipe]
  rfl

/-- The all-fail environment used by the C2 and C6 witnesses. -/
def envFail : TransEnv :=
  { useMockTranscription := false
    openaiKeyPresent := true
    openaiKeyPlaceholder := false
    elevenlabsKeyPresent := true
    assemblyaiKeyPresent := true
    openaiCall := fun _ _ => Except.error "openai down"
    elevenlabsCall := fun _ _ => Except.error "elevenlabs down"
    assemblyaiCall := fun _ _ => Except.error "assemblyai down"
    rand := 0 }

theorem envFail_allFail : allProvidersFail envFail :=
  ⟨Or.inr (Or.inr (fun _ _ => ⟨"openai down", rfl⟩)),
   Or.inr (fun _ _ => ⟨"elevenlabs down", rfl⟩),
   Or.inr (fun _ _ => ⟨"assemblyai down", rfl⟩)⟩

/-- A one-session buffered state for the C2 witness. -/
def c2State : TransState :=
  { audioBuffer :=
      [("s1",
        { chunks :=
            [ { data := [1, 2], timestamp := 10, speaker := some "doctor" },
              { data := [3], timestamp := 11, speaker := some "patient" } ]
          lastProcessed := 10
          totalSize := 3 })] }

/-- Witness for `c2_gateway_never_fails`: with every provider failing, the
buffered audio of session `s1` still transcribes to the first mock phrase. -/
theorem c2_gateway_never_fails_witness :
    transcribeBufferedAudio envFail "openai" c2State "s1" =
      Except.ok (some
        { text := "Hello, what brings you in today?"
          confidencePct := 95
          speaker := "patient"
          provider := "mock" }) := by
  have h := (c2_gateway_never_fails envFail "openai" c2State "s1").2 envFail_allFail
    ((mapGet c2State.audioBuffer "s1").getD { chunks := [], lastProcessed := 0, totalSize := 0 })
    (by decide) (by decide)
  rw [h.1]
  rfl

/-! ## Claim C6: flush semantics of the audio buffer -/

theorem transcribeBufferedAudio_eq (env : TransEnv) (ap : String) (st : TransState)
    (sid : String) (buf : SessionBuffer)
    (hbuf : mapGet st.audioBuffer sid = some buf) (hne : buf.chunks ≠ []) :
    transcribeBufferedAudio env ap st sid =
      (transcribePipeline env ap ((buf.chunks.map (fun c => c.data)).flatten)
        (buf.chunks.getLast?.bind (fun c => c.speaker))).map some := by
  unfold transcribeBufferedAudio
  rw [hbuf]
  dsimp only
  rw [if_neg (by simpa [List.isEmpty_iff] using hne)]

/-- C6 (confirmed): on an arrival-triggered flush the audio submitted to the
pipeline is the concatenation of the buffered fragments in arrival order
followed by the new fragment, the speaker tag is the newest fragment's
speaker, and the buffer is reset afterwards — for every provider environment,
succeeding or failing.  On a sweep-triggered flush the stale buffer is
likewise reset for every environment. -/
theorem c6_flush_concat_tag_clear :
    (∀ env cfg ap st audio spk sid ts now buf,
       env.useMockTranscription = false →
       mapGet st.audioBuffer sid = some buf →
       (buf.totalSize + audio.length ≥ cfg.maxAudioChunkSize ∨
        now - buf.lastProcessed ≥ cfg.interval ∨
        buf.chunks.length + 1 ≥ 3) →
       (∃ seg, (processAudioChunk env cfg ap st audio spk sid ts now).1 =
            Except.ok (some seg) ∧
          transcribePipeline env ap
            ((buf.chunks.map (fun c => c.data)).flatten ++ audio) spk =
            Except.ok seg) ∧
       mapGet (processAudioChunk env cfg ap st audio spk sid ts now).2.audioBuffer sid =
         some { chunks := [], lastProcessed := now, totalSize := 0 }) ∧
    (∀ env ap st now sid buf,
       mapGet st.audioBuffer sid = some buf → buf.chunks ≠ [] →
       now - buf.lastProcessed > 8000 →
       mapGet (periodicBufferSweep env ap st now).audioBuffer sid =
         some { chunks := [], lastProcessed := now, totalSize := 0 }) := by
  constructor
  · intro env cfg ap st audio spk sid ts now buf hmock hbuf htrig
    have hnc : (buf.chunks ++
        [({ data := audio, timestamp := ts, speaker := spk } : AudioChunkRec)]) ≠ [] := by
      simp
    unfold processAudioChunk
    rw [if_neg (by simp [hmock])]
    dsimp only
    have hsome : (mapGet st.audioBuffer sid).isSome = true := by
      rw [hbuf]
      rfl
    rw [if_pos hsome, hbuf]
    dsimp only
    have htrig2 : buf.totalSize + audio.length ≥ cfg.maxAudioChunkSize ∨
        now - buf.lastProcessed ≥ cfg.interval ∨
        (buf.chunks ++
          [({ data := audio, timestamp := ts, speaker := spk } : AudioChunkRec)]).length ≥ 3 := by
      simpa using htrig
    rw [if_pos htrig2]
    rw [transcribeBufferedAudio_eq env ap _ sid _ (mapGet_mapSet_self _ _ _) hnc]
    obtain ⟨seg, hseg⟩ := transcribePipeline_ok env ap
      ((buf.chunks.map (fun c => c.data)).flatten ++ audio) spk
    have hflat : (((buf.chunks ++
        [({ data := audio, timestamp := ts, speaker := spk } : AudioChunkRec)]).map
          (fun c => c.data)).flatten) =
        (buf.chunks.map (fun c => c.data)).flatten ++ audio := by
      simp
    have hlast : ((buf.chunks ++
        [({ data := audio, timestamp := ts, speaker := spk } : AudioChunkRec)]).getLast?.bind
          (fun c => c.speaker)) = spk := by
      simp
    rw [hflat, hlast, hseg]
    dsimp only [Except.map]
    exact ⟨⟨seg, rfl, rfl⟩, mapGet_mapSet_self _ _ _⟩
  · intro env ap st now sid buf hbuf hne hage
    unfold periodicBufferSweep
    dsimp only
    rw [mapGet_map_entries (sweepBuf env ap st now) st.audioBuffer sid, hbuf]
    dsimp only [Option.map]
    unfold sweepBuf
    rw [if_pos ⟨by simpa [List.isEmpty_iff] using hne, hage⟩]
    obtain ⟨r, hr⟩ := transcribeBufferedAudio_ok env ap st sid
    rw [hr]

/-- Buffered state for the sweep half of the C6 witness: a stale buffer last
processed at time 0. -/
def c6SweepState : TransState :=
  { audioBuffer :=
      [("s1",
        { chunks := [ { data := [5], timestamp := 1, speaker := some "doctor" } ]
          lastProcessed := 0
          totalSize := 1 })] }

/-- Witness for `c6_flush_concat_tag_clear` with the all-fail provider
environment: the third fragment triggers a flush that still resolves and
resets the buffer, and the periodic sweep resets a stale buffer. -/
theorem c6_flush_concat_tag_clear_witness :
    ((∃ seg, (processAudioChunk envFail { maxAudioChunkSize := 1048576, interval := 3000 }
          "openai" c2State [7] (some "doctor") "s1" 11 11).1 = Except.ok (some seg) ∧
        transcribePipeline envFail "openai" ([1, 2, 3] ++ [7]) (some "doctor") =
          Except.ok seg) ∧
      mapGet (processAudioChunk envFail { maxAudioChunkSize := 1048576, interval := 3000 }
          "openai" c2State [7] (some "doctor") "s1" 11 11).2.audioBuffer "s1" =
        some { chunks := [], lastProcessed := 11, totalSize := 0 }) ∧
    mapGet (periodicBufferSweep envFail "openai" c6SweepState 9000).audioBuffer "s1" =
      some { chunks := [], lastProcessed := 9000, totalSize := 0 } := by
  constructor
  · have h := c6_flush_concat_tag_clear.1 envFail
      { maxAudioChunkSize := 1048576, interval := 3000 } "openai" c2State [7]
      (some "doctor") "s1" 11 11
      ((mapGet c2State.audioBuffer "s1").getD { chunks := [], lastProcessed := 0, totalSize := 0 })
      rfl (by decide) (by decide)
    exact h
  · exact c6_flush_concat_tag_clear.2 envFail "openai" c6SweepState 9000 "s1"
      ((mapGet c6SweepState.audioBuffer "s1").getD { chunks := [], lastProcessed := 0, totalSize := 0 })
      (by decide) (by decide) (by decide)

/-! ## Handler computation lemmas -/

theorem removeUser_eq (st : ServerState) (cid : String) (now : Nat) (sid : String)
    (s : Session) (hu : mapGet st.sessionUsers cid = some sid)
    (ha : mapGet st.activeSessions sid = some s) :
    removeUserFromSession st cid now =
      (some (sid, clearSlotsFor s cid now),
       { activeSessions := mapSet st.activeSessions sid (clearSlotsFor s cid now)
         sessionUsers := mapDelete st.sessionUsers cid }) := by
  unfold removeUserFromSession
  rw [hu]
  dsimp only
  rw [ha]

theorem addUser_eq (st : ServerState) (sid role cid : String) (now : Nat)
    (s : Session) (ha : mapGet st.activeSessions sid = some s) :
    addUserToSession st sid role cid now =
      (some (attachSlot s (roleCoerce role) cid now),
       { activeSessions :=
           mapSet st.activeSessions sid (attachSlot s (roleCoerce role) cid now)
         sessionUsers := mapSet st.sessionUsers cid sid }) := by
  unfold addUserToSession
  rw [ha]

theorem roleCoerce_doctor : roleCoerce "doctor" = "doctor" := by
  unfold roleCoerce
  simp

/-- The session stored after the detach/re-attach dance every recording and
MER handler performs on the issuing socket, under the doctor role. -/
def redancedDoctor (s : Session) (cid : String) (now : Nat) : Session :=
  attachSlot (clearSlotsFor s cid now) "doctor" cid now

theorem redancedDoctor_slots (s : Session) (cid : String) (now : Nat) :
    (redancedDoctor s cid now).doctor.socketId = some cid ∧
    (redancedDoctor s cid now).patient.socketId ≠ some cid := by
  unfold redancedDoctor
  refine ⟨attachSlot_doctor_socketId _ _ _, ?_⟩
  rw [show (attachSlot (clearSlotsFor s cid now) "doctor" cid now).patient =
        (clearSlotsFor s cid now).patient from attachSlot_doctor_patientSlot _ _ _]
  exact (clearSlotsFor_no_ref s cid now).2

theorem redancedDoctor_preserves (s : Session) (cid : String) (now : Nat) :
    (redancedDoctor s cid now).isRecording = s.isRecording ∧
    (redancedDoctor s cid now).transcript = s.transcript ∧
    (redancedDoctor s cid now).recordingStartTime = s.recordingStartTime ∧
    (redancedDoctor s cid now).recordingEndTime = s.recordingEndTime ∧
    (redancedDoctor s cid now).merDocument = s.merDocument := by
  unfold redancedDoctor
  refine ⟨?_, ?_, ?_, ?_, ?_⟩
  · rw [(attachSlot_preserves _ _ _ _).1, (clearSlotsFor_preserves _ _ _).1]
  · rw [(attachSlot_preserves _ _ _ _).2.1, (clearSlotsFor_preserves _ _ _).2.1]
  · rw [(attachSlot_preserves _ _ _ _).2.2.1, (clearSlotsFor_preserves _ _ _).2.2.1]
  · rw [(attachSlot_preserves _ _ _ _).2.2.2.1, (clearSlotsFor_preserves _ _ _).2.2.2.1]
  · rw [(attachSlot_preserves _ _ _ _).2.2.2.2, (clearSlotsFor_preserves _ _ _).2.2.2.2]

/-- Reduction of `stopRecordingHandler` for an attached sender claiming the
doctor role, up to the recording guard. -/
theorem stopHandler_eq (st : ServerState) (sender : String) (data : CmdData)
    (env : MerEnv) (now : Nat) (sid : String) (s : Session)
    (hu : mapGet st.sessionUsers sender = some sid)
    (ha : mapGet st.activeSessions sid = some s)
    (hrole : data.userRole = some "doctor") :
    stopRecordingHandler st sender data env now =
      (let stR : ServerState :=
         { activeSessions := mapSet st.activeSessions sid (clearSlotsFor s sender now)
           sessionUsers := mapDelete st.sessionUsers sender }
       let sess := redancedDoctor s sender now
       let st2 : ServerState :=
         { activeSessions := mapSet stR.activeSessions sid sess
           sessionUsers := mapSet stR.sessionUsers sender sid }
       if sess.isRecording = false then
         (st2, [Emit.toSocket sender (Event.errorMsg "Session is not currently recording")])
       else
         let sess1 := { sess with isRecording := false, status := "completed",
                                  recordingEndTime := some now }
         let st3 : ServerState :=
           { st2 with activeSessions := mapSet st2.activeSessions sid sess1 }
         let stoppedEvt :=
           Emit.toRoom sid
             (Event.recordingStopped (data.userName.getD "Doctor")
               (now - sess1.recordingStartTime.getD 0) sess1.transcript.length)
         if sess1.transcript.length > 0 then
           match env.merResult with
           | Except.ok doc =>
               let sess2 := { sess1 with merDocument := some doc }
               let st4 : ServerState :=
                 { st3 with activeSessions := mapSet st3.activeSessions sid sess2 }
               match sess2.doctor.socketId with
               | some dsock =>
                   (st4, [Emit.toSocket dsock (Event.merGenerated doc), stoppedEvt])
               | none => (st4, [stoppedEvt])
           | Except.error _ =>
               (st3,
                [Emit.toSocket sender
                   (Event.merGenerationError "Failed to generate MER document automatically"),
                 stoppedEvt])
         else (st3, [stoppedEvt])) := by
  unfold stopRecordingHandler
  rw [removeUser_eq st sender now sid s hu ha]
  dsimp only
  rw [addUser_eq _ sid _ sender now (clearSlotsFor s sender now) (mapGet_mapSet_self _ _ _)]
  dsimp only
  rw [hrole]
  dsimp only [Option.getD]
  rw [roleCoerce_doctor]
  rw [if_neg (by simp)]
  rfl

/-- Reduction of `startRecordingHandler` for an attached sender claiming the
doctor role. -/
theorem startHandler_eq (st : ServerState) (sender : String) (data : CmdData)
    (now : Nat) (sid : String) (s : Session)
    (hu : mapGet st.sessionUsers sender = some sid)
    (ha : mapGet st.activeSessions sid = some s)
    (hrole : data.userRole = some "doctor") :
    startRecordingHandler st sender data now =
      (let stR : ServerState :=
         { activeSessions := mapSet st.activeSessions sid (clearSlotsFor s sender now)
           sessionUsers := mapDelete st.sessionUsers sender }
       let sess := redancedDoctor s sender now
       let st2 : ServerState :=
         { activeSessions := mapSet stR.activeSessions sid sess
           sessionUsers := mapSet stR.sessionUsers sender sid }
       let sess1 := { sess with isRecording := true, status := "recording",
                                recordingStartTime := some now }
       ({ st2 with activeSessions := mapSet st2.activeSessions sid sess1 },
        [Emit.toRoom sid (Event.recordingStarted (data.userName.getD "Doctor"))])) := by
  unfold startRecordingHandler
  rw [removeUser_eq st sender now sid s hu ha]
  dsimp only
  rw [addUser_eq _ sid _ sender now (clearSlotsFor s sender now) (mapGet_mapSet_self _ _ _)]
  dsimp only
  rw [hrole]
  dsimp only [Option.getD]
  rw [roleCoerce_doctor]
  rw [if_neg (by simp)]
  rfl

/-! ## Claims C4 and C7: recording guards -/

/-- A session that is mid-recording with the doctor attached, for the C4
counterexample. -/
def c4Session : Session :=
  { id := "s1"
    doctor := { name := some "Alice", socketId := some "D", joinedAt := some 1 }
    patient := { name := none, socketId := none, joinedAt := none }
    status := "recording"
    transcript := []
    isRecording := true
    merDocument := none
    recordingStartTime := some 2
    recordingEndTime := none
    metadata := { createdAt := 0, lastActivity := 2,
                  recordingStartTime := none, recordingEndTime := none } }

def c4State : ServerState :=
  { activeSessions := [("s1", c4Session)], sessionUsers := [("D", "s1")] }

/-- C4 (counterexample): a `start-recording` from the doctor while the
session is already recording is not rejected — no error event is emitted, the
`recording-started` broadcast is re-sent, and `recordingStartTime` is
overwritten (2 becomes 9), so the command is not a no-op acknowledged as an
`AlreadyRecording` error as the claim states. -/
theorem c4_counterexample :
    c4Session.isRecording = true ∧
    (startRecordingHandler c4State "D"
        { userRole := some "doctor", userName := some "Alice" } 9).2 =
      [Emit.toRoom "s1" (Event.recordingStarted "Alice")] ∧
    (mapGet (startRecordingHandler c4State "D"
        { userRole := some "doctor", userName := some "Alice" } 9).1.activeSessions
        "s1").map (fun s => s.recordingStartTime) = some (some 9) := by
  decide

/-- C4 (amended): only the stop half of the claim holds.  A `stop-recording`
while idle is rejected with the NotRecording error and leaves the
recording-related state (isRecording, both recording timestamps, transcript,
stored document) unchanged, though the handler's detach/re-attach
bookkeeping still refreshes join metadata.  A `start-recording` while
already recording is not guarded at all: it re-broadcasts
`recording-started` and overwrites `recordingStartTime`. -/
theorem c4_stop_guarded_start_unguarded :
    (∀ st sender data env now sid s,
       mapGet st.sessionUsers sender = some sid →
       mapGet st.activeSessions sid = some s →
       data.userRole = some "doctor" →
       s.isRecording = false →
       (stopRecordingHandler st sender data env now).2 =
         [Emit.toSocket sender (Event.errorMsg "Session is not currently recording")] ∧
       ∃ s1, mapGet (stopRecordingHandler st sender data env now).1.activeSessions sid =
           some s1 ∧
         s1.isRecording = false ∧ s1.transcript = s.transcript ∧
         s1.recordingStartTime = s.recordingStartTime ∧
         s1.recordingEndTime = s.recordingEndTime ∧
         s1.merDocument = s.merDocument) ∧
    (∀ st sender data now sid s,
       mapGet st.sessionUsers sender = some sid →
       mapGet st.activeSessions sid = some s →
       data.userRole = some "doctor" →
       s.isRecording = true →
       (startRecordingHandler st sender data now).2 =
         [Emit.toRoom sid (Event.recordingStarted (data.userName.getD "Doctor"))] ∧
       ∃ s1, mapGet (startRecordingHandler st sender data now).1.activeSessions sid =
           some s1 ∧
         s1.isRecording = true ∧ s1.status = "recording" ∧
         s1.recordingStartTime = some now) := by
  constructor
  · intro st sender data env now sid s hu ha hrole hrec
    rw [stopHandler_eq st sender data env now sid s hu ha hrole]
    dsimp only
    have hrec2 : (redancedDoctor s sender now).isRecording = false := by
      rw [(redancedDoctor_preserves s sender now).1, hrec]
    rw [if_pos hrec2]
    refine ⟨rfl, redancedDoctor s sender now, mapGet_mapSet_self _ _ _, hrec2,
      (redancedDoctor_preserves s sender now).2.1,
      (redancedDoctor_preserves s sender now).2.2.1,
      (redancedDoctor_preserves s sender now).2.2.2.1,
      (redancedDoctor_preserves s sender now).2.2.2.2⟩
  · intro st sender data now sid s hu ha hrole _
    rw [startHandler_eq st sender data now sid s hu ha hrole]
    dsimp only
    exact ⟨rfl, _, mapGet_mapSet_self _ _ _, rfl, rfl, rfl⟩

/-- An idle session with the doctor attached, for the guard witnesses. -/
def c4IdleSession : Session :=
  { c4Session with status := "waiting", isRecording := false, recordingStartTime := none }

def c4IdleState : ServerState :=
  { activeSessions := [("s1", c4IdleSession)], sessionUsers := [("D", "s1")] }

/-- Witness for `c4_stop_guarded_start_unguarded` at concrete states. -/
theorem c4_stop_guarded_start_unguarded_witness :
    (stopRecordingHandler c4IdleState "D"
        { userRole := some "doctor", userName := some "Alice" }
        { merResult := Except.ok { content := "m" } } 9).2 =
      [Emit.toSocket "D" (Event.errorMsg "Session is not currently recording")] ∧
    (startRecordingHandler c4State "D"
        { userRole := some "doctor", userName := some "Alice" } 9).2 =
      [Emit.toRoom "s1" (Event.recordingStarted
        ((some "Alice" : Option String).getD "Doctor"))] := by
  constructor
  · exact (c4_stop_guarded_start_unguarded.1 c4IdleState "D"
      { userRole := some "doctor", userName := some "Alice" }
      { merResult := Except.ok { content := "m" } } 9 "s1" c4IdleSession
      (by decide) (by decide) rfl rfl).1
  · exact (c4_stop_guarded_start_unguarded.2 c4State "D"
      { userRole := some "doctor", userName := some "Alice" } 9 "s1" c4Session
      (by decide) (by decide) rfl rfl).1

/-- An idle session with the patient attached, for the C7 counterexample. -/
def c7Session : Session :=
  { id := "s1"
    doctor := { name := some "Alice", socketId := none, joinedAt := none }
    patient := { name := some "Bob", socketId := some "P", joinedAt := some 1 }
    status := "waiting"
    transcript := []
    isRecording := false
    merDocument := none
    recordingStartTime := none
    recordingEndTime := none
    metadata := { createdAt := 0, lastActivity := 1,
                  recordingStartTime := none, recordingEndTime := none } }

def c7State : ServerState :=
  { activeSessions := [("s1", c7Session)], sessionUsers := [("P", "s1")] }

/-- C7 (counterexample): a `stop-recording` issued by the attached patient
while the session is not recording is rejected with the role error, not with
NotRecording — so rejection-with-NotRecording does not hold whenever the
session is not currently recording, refuting the stated biconditional. -/
theorem c7_counterexample :
    c7Session.isRecording = false ∧
    (stopRecordingHandler c7State "P"
        { userRole := some "patient", userName := some "Bob" }
        { merResult := Except.ok { content := "m" } } 5).2 =
      [Emit.toSocket "P" (Event.errorMsg "Only doctors can stop recording")] := by
  decide

/-- C7 (amended): restricted to commands from a socket attached to a session
and carrying the doctor role, the NotRecording rejection happens iff the
session is not currently recording when the command arrives; non-doctor
senders are rejected with the role error regardless, and unattached senders
are ignored silently. -/
theorem c7_notrecording_iff_doctor (st : ServerState) (sender : String)
    (data : CmdData) (env : MerEnv) (now : Nat) (sid : String) (s : Session)
    (hu : mapGet st.sessionUsers sender = some sid)
    (ha : mapGet st.activeSessions sid = some s)
    (hrole : data.userRole = some "doctor") :
    (Emit.toSocket sender (Event.errorMsg "Session is not currently recording") ∈
       (stopRecordingHandler st sender data env now).2) ↔
    s.isRecording = false := by
  rw [stopHandler_eq st sender data env now sid s hu ha hrole]
  dsimp only
  by_cases hrec : s.isRecording = false
  · have hrec2 : (redancedDoctor s sender now).isRecording = false := by
      rw [(redancedDoctor_preserves s sender now).1, hrec]
    rw [if_pos hrec2]
    simp [hrec]
  · have hrec2 : ¬((redancedDoctor s sender now).isRecording = false) := by
      rw [(redancedDoctor_preserves s sender now).1]
      exact hrec
    rw [if_neg hrec2]
    constructor
    · intro hmem
      exfalso
      split at hmem
      · split at hmem
        · split at hmem
          · simp at hmem
          · simp at hmem
        · simp at hmem
      · simp at hmem
    · intro hc
      exact absurd hc hrec

/-- Witness for `c7_notrecording_iff_doctor`: on the idle doctor-attached
state the NotRecording error is indeed emitted. -/
theorem c7_notrecording_iff_doctor_witness :
    Emit.toSocket "D" (Event.errorMsg "Session is not currently recording") ∈
      (stopRecordingHandler c4IdleState "D"
        { userRole := some "doctor", userName := some "Alice" }
        { merResult := Except.ok { content := "m" } } 9).2 := by
  exact (c7_notrecording_iff_doctor c4IdleState "D"
    { userRole := some "doctor", userName := some "Alice" }
    { merResult := Except.ok { content := "m" } } 9 "s1" c4IdleSession
    (by decide) (by decide) rfl).mpr rfl

/-! ## Claim C5: stop-recording and document generation ordering -/

/-- A recording session with one transcript entry, doctor attached. -/
def c5Entry : TranscriptEntry :=
  { id := 100, speaker := "patient", speakerName := "Bob",
    text := "hello", timestamp := 3, confidencePct := 90 }

def c5Session : Session :=
  { id := "s1"
    doctor := { name := some "Alice", socketId := some "D", joinedAt := some 1 }
    patient := { name := some "Bob", socketId := some "P", joinedAt := some 1 }
    status := "recording"
    transcript := [c5Entry]
    isRecording := true
    merDocument := none
    recordingStartTime := some 2
    recordingEndTime := none
    metadata := { createdAt := 0, lastActivity := 3,
                  recordingStartTime := none, recordingEndTime := none } }

def c5State : ServerState :=
  { activeSessions := [("s1", c5Session)]
    sessionUsers := [("D", "s1"), ("P", "s1")] }

/-- C5 (counterexample): on a doctor's `stop-recording` over a non-empty
transcript, the `recording-stopped` broadcast is the second emitted event,
emitted only after the event that carries the document-generation outcome,
and which event precedes it depends on that outcome — i.e. the handler
awaits the generation call before broadcasting, so the broadcast does not
complete without waiting for document generation as the claim states. -/
theorem c5_counterexample :
    (stopRecordingHandler c5State "D"
        { userRole := some "doctor", userName := some "Alice" }
        { merResult := Except.ok { content := "doc" } } 9).2 =
      [Emit.toSocket "D" (Event.merGenerated { content := "doc" }),
       Emit.toRoom "s1" (Event.recordingStopped "Alice" 7 1)] ∧
    (stopRecordingHandler c5State "D"
        { userRole := some "doctor", userName := some "Alice" }
        { merResult := Except.error "llm down" } 9).2 =
      [Emit.toSocket "D"
         (Event.merGenerationError "Failed to generate MER document automatically"),
       Emit.toRoom "s1" (Event.recordingStopped "Alice" 7 1)] := by
  decide

/-- C5 (amended): the recording-to-idle transition itself (isRecording,
status, recordingEndTime) happens before and regardless of the generation
outcome, and generation failure is caught, but the `recording-stopped`
broadcast is sequenced after the generation call: it is always the final
emitted event, preceded by `mer-generated` on success and by
`mer-generation-error` on failure. -/
theorem c5_generation_before_broadcast (st : ServerState) (sender : String)
    (data : CmdData) (env : MerEnv) (now : Nat) (sid : String) (s : Session)
    (hu : mapGet st.sessionUsers sender = some sid)
    (ha : mapGet st.activeSessions sid = some s)
    (hrole : data.userRole = some "doctor")
    (hrec : s.isRecording = true) (htr : s.transcript ≠ []) :
    (∃ pre, (stopRecordingHandler st sender data env now).2 =
       pre ++ [Emit.toRoom sid (Event.recordingStopped (data.userName.getD "Doctor")
         (now - s.recordingStartTime.getD 0) s.transcript.length)] ∧
       (∀ doc, env.merResult = Except.ok doc →
          pre = [Emit.toSocket sender (Event.merGenerated doc)]) ∧
       (∀ msg, env.merResult = Except.error msg →
          pre = [Emit.toSocket sender (Event.merGenerationError
            "Failed to generate MER document automatically")])) ∧
    (∃ s1, mapGet (stopRecordingHandler st sender data env now).1.activeSessions sid =
        some s1 ∧
      s1.isRecording = false ∧ s1.status = "completed" ∧
      s1.recordingEndTime = some now) := by
  rw [stopHandler_eq st sender data env now sid s hu ha hrole]
  dsimp only
  have hrec2 : ¬((redancedDoctor s sender now).isRecording = false) := by
    rw [(redancedDoctor_preserves s sender now).1, hrec]
    simp
  rw [if_neg hrec2]
  have htl : (redancedDoctor s sender now).transcript = s.transcript :=
    (redancedDoctor_preserves s sender now).2.1
  have hst : (redancedDoctor s sender now).recordingStartTime = s.recordingStartTime :=
    (redancedDoctor_preserves s sender now).2.2.1
  rw [htl, hst]
  rw [if_pos (List.length_pos.mpr htr)]
  cases hmr : env.merResult with
  | ok doc =>
      dsimp only
      have hdoc : (redancedDoctor s sender now).doctor.socketId = some sender :=
        (redancedDoctor_slots s sender now).1
      rw [hdoc]
      dsimp only
      refine ⟨⟨[Emit.toSocket sender (Event.merGenerated doc)], rfl, ?_, ?_⟩, ?_⟩
      · intro doc' hd
        cases hd
        rfl
      · intro msg hd
        exact Except.noConfusion hd
      · exact ⟨_, mapGet_mapSet_self _ _ _, rfl, rfl, rfl⟩
  | error e =>
      dsimp only
      refine ⟨⟨[Emit.toSocket sender (Event.merGenerationError
          "Failed to generate MER document automatically")], rfl, ?_, ?_⟩, ?_⟩
      · intro doc' hd
        exact Except.noConfusion hd
      · intro msg hd
        rfl
      · exact ⟨_, mapGet_mapSet_self _ _ _, rfl, rfl, rfl⟩

/-- Witness for `c5_generation_before_broadcast` at the concrete recording
state with a successful generation. -/
theorem c5_generation_before_broadcast_witness :
    (∃ pre, (stopRecordingHandler c5State "D"
        { userRole := some "doctor", userName := some "Alice" }
        { merResult := Except.ok { content := "doc" } } 9).2 =
       pre ++ [Emit.toRoom "s1" (Event.recordingStopped
         ((some "Alice" : Option String).getD "Doctor")
         (9 - c5Session.recordingStartTime.getD 0) c5Session.transcript.length)] ∧
       (∀ doc, ({ merResult := Except.ok { content := "doc" } } : MerEnv).merResult =
            Except.ok doc →
          pre = [Emit.toSocket "D" (Event.merGenerated doc)]) ∧
       (∀ msg, ({ merResult := Except.ok { content := "doc" } } : MerEnv).merResult =
            Except.error msg →
          pre = [Emit.toSocket "D" (Event.merGenerationError
            "Failed to generate MER document automatically")])) ∧
    (∃ s1, mapGet (stopRecordingHandler c5State "D"
        { userRole := some "doctor", userName := some "Alice" }
        { merResult := Except.ok { content := "doc" } } 9).1.activeSessions "s1" =
        some s1 ∧
      s1.isRecording = false ∧ s1.status = "completed" ∧
      s1.recordingEndTime = some 9) := by
  exact c5_generation_before_broadcast c5State "D"
    { userRole := some "doctor", userName := some "Alice" }
    { merResult := Except.ok { content := "doc" } } 9 "s1" c5Session
    (by decide) (by decide) rfl rfl (by decide)

/-! ## Claim C3: mer-generated delivery is doctor-only -/

/-- Whether an emission carries the `mer-generated` event, whatever its
delivery target. -/
def isMerEmit : Emit → Bool
  | Emit.toSocket _ (Event.merGenerated _) => true
  | Emit.toRoom _ (Event.merGenerated _) => true
  | Emit.toRoomExcept _ _ (Event.merGenerated _) => true
  | _ => false

/-- Every `mer-generated` emission of a handler run goes to a single socket
that is, in the post-handler state, the doctor slot's connection of some
session whose patient slot holds a different (or no) connection. -/
def merOnlyToDoctor (result : ServerState × List Emit) : Prop :=
  ∀ e, e ∈ result.2 → isMerEmit e = true →
    ∃ tgt doc sid s, e = Emit.toSocket tgt (Event.merGenerated doc) ∧
      mapGet result.1.activeSessions sid = some s ∧
      s.doctor.socketId = some tgt ∧ s.patient.socketId ≠ some tgt

/-- After the detach/re-attach dance under the doctor role, the session's
doctor slot is the sender and its patient slot is not. -/
theorem attach_after_remove_slots (st : ServerState) (sender : String)
    (now1 now2 : Nat) (sid : String) (sRem : Session) (stR : ServerState)
    (sess : Session) (st2 : ServerState)
    (h1 : removeUserFromSession st sender now1 = ((some (sid, sRem), stR) :
           Option (String × Session) × ServerState))
    (h2 : addUserToSession stR sid "doctor" sender now2 = ((some sess, st2) :
           Option Session × ServerState)) :
    sess.doctor.socketId = some sender ∧ sess.patient.socketId ≠ some sender := by
  obtain ⟨hnd, hnp, hget, -, -⟩ :=
    removeUser_characterize st sender now1 sid sRem stR h1
  obtain ⟨-, -, s0, hs0, hsess⟩ :=
    addUser_characterize stR sid "doctor" sender now2 sess st2 h2
  rw [hget] at hs0
  obtain rfl : s0 = sRem := (Option.some.inj hs0).symm
  rw [hsess, roleCoerce_doctor]
  refine ⟨attachSlot_doctor_socketId _ _ _, ?_⟩
  rw [attachSlot_doctor_patientSlot]
  exact hnp

/-- C3 (confirmed): the `mer-generated` document event is delivered only to
the socket currently occupying the doctor slot of the session — never to the
patient slot's socket — both on the automatic generation at `stop-recording`
and on an explicit `generate-mer` request. -/
theorem c3_mer_only_to_doctor (st : ServerState) (sender : String) (data : CmdData)
    (env : MerEnv) (now : Nat) :
    merOnlyToDoctor (stopRecordingHandler st sender data env now) ∧
    merOnlyToDoctor (generateMerHandler st sender data env now) := by
  constructor
  · rcases hres : stopRecordingHandler st sender data env now with ⟨st1, ems⟩
    intro e he hm
    unfold stopRecordingHandler at hres
    rcases h1 : removeUserFromSession st sender now with ⟨r1, stR⟩
    rw [h1] at hres
    cases r1 with
    | none =>
        dsimp only at hres
        injection hres with hA hB
        subst hB
        simp at he
    | some p =>
        obtain ⟨sid0, sRem⟩ := p
        dsimp only at hres
        rcases h2 : addUserToSession stR sid0 (data.userRole.getD "doctor") sender now
          with ⟨r2, st2⟩
        rw [h2] at hres
        cases r2 with
        | none =>
            dsimp only at hres
            injection hres with hA hB
            subst hB
            simp at he
        | some sess =>
            dsimp only at hres
            by_cases hrole : data.userRole ≠ some "doctor"
            · rw [if_pos hrole] at hres
              injection hres with hA hB
              subst hB
              simp only [List.mem_singleton] at he
              subst he
              simp [isMerEmit] at hm
            · rw [if_neg hrole] at hres
              have hroleEq : data.userRole = some "doctor" := not_ne_iff.mp hrole
              rw [hroleEq] at h2
              have hslots := attach_after_remove_slots st sender now now sid0 sRem stR
                sess st2 h1 h2
              by_cases hrec : sess.isRecording = false
              · rw [if_pos hrec] at hres
                injection hres with hA hB
                subst hB
                simp only [List.mem_singleton] at he
                subst he
                simp [isMerEmit] at hm
              · rw [if_neg hrec] at hres
                try dsimp only at hres
                by_cases htr : sess.transcript.length > 0
                · rw [if_pos htr] at hres
                  cases hmr : env.merResult with
                  | ok doc =>
                      rw [hmr] at hres
                      try dsimp only at hres
                      rw [hslots.1] at hres
                      try dsimp only at hres
                      injection hres with hA hB
                      subst hA
                      subst hB
                      simp only [List.mem_cons, List.mem_singleton] at he
                      rcases he with rfl | he
                      · exact ⟨sender, doc, sid0, _, rfl, mapGet_mapSet_self _ _ _,
                          hslots.1, hslots.2⟩
                      · rcases he with rfl | he
                        · simp [isMerEmit] at hm
                        · simp at he
                  | error msg =>
                      rw [hmr] at hres
                      try dsimp only at hres
                      injection hres with hA hB
                      subst hB
                      simp only [List.mem_cons, List.mem_singleton] at he
                      rcases he with rfl | he
                      · simp [isMerEmit] at hm
                      · rcases he with rfl | he
                        · simp [isMerEmit] at hm
                        · simp at he
                · rw [if_neg htr] at hres
                  injection hres with hA hB
                  subst hB
                  simp only [List.mem_singleton] at he
                  subst he
                  simp [isMerEmit] at hm
  · rcases hres : generateMerHandler st sender data env now with ⟨st1, ems⟩
    intro e he hm
    unfold generateMerHandler at hres
    rcases h1 : removeUserFromSession st sender now with ⟨r1, stR⟩
    rw [h1] at hres
    cases r1 with
    | none =>
        dsimp only at hres
        injection hres with hA hB
        subst hB
        simp at he
    | some p =>
        obtain ⟨sid0, sRem⟩ := p
        dsimp only at hres
        rcases h2 : addUserToSession stR sid0 (data.userRole.getD "doctor") sender now
          with ⟨r2, st2⟩
        rw [h2] at hres
        cases r2 with
        | none =>
            dsimp only at hres
            injection hres with hA hB
            subst hB
            simp at he
        | some sess =>
            dsimp only at hres
            by_cases hrole : data.userRole ≠ some "doctor"
            · rw [if_pos hrole] at hres
              injection hres with hA hB
              subst hB
              simp only [List.mem_singleton] at he
              subst he
              simp [isMerEmit] at hm
            · rw [if_neg hrole] at hres
              have hroleEq : data.userRole = some "doctor" := not_ne_iff.mp hrole
              rw [hroleEq] at h2
              have hslots := attach_after_remove_slots st sender now now sid0 sRem stR
                sess st2 h1 h2
              by_cases htr : sess.transcript.length = 0
              · rw [if_pos htr] at hres
                injection hres with hA hB
                subst hB
                simp only [List.mem_singleton] at he
                subst he
                simp [isMerEmit] at hm
              · rw [if_neg htr] at hres
                cases hmr : env.merResult with
                | ok doc =>
                    rw [hmr] at hres
                    try dsimp only at hres
                    injection hres with hA hB
                    subst hA
                    subst hB
                    simp only [List.mem_singleton] at he
                    subst he
                    exact ⟨sender, doc, sid0, _, rfl, mapGet_mapSet_self _ _ _,
                      hslots.1, hslots.2⟩
                | error msg =>
                    rw [hmr] at hres
                    try dsimp only at hres
                    injection hres with hA hB
                    subst hB
                    simp only [List.mem_singleton] at he
                    subst he
                    simp [isMerEmit] at hm

/-- Witness for `c3_mer_only_to_doctor`: on the concrete recording state the
`generate-mer` success path emits the document to the doctor socket `D`. -/
theorem c3_mer_only_to_doctor_witness :
    ∃ tgt doc sid s,
      Emit.toSocket "D" (Event.merGenerated { content := "doc" }) =
        Emit.toSocket tgt (Event.merGenerated doc) ∧
      mapGet (generateMerHandler c5State "D"
        { userRole := some "doctor", userName := some "Alice" }
        { merResult := Except.ok { content := "doc" } } 9).1.activeSessions sid =
        some s ∧
      s.doctor.socketId = some tgt ∧ s.patient.socketId ≠ some tgt := by
  exact (c3_mer_only_to_doctor c5State "D"
      { userRole := some "doctor", userName := some "Alice" }
      { merResult := Except.ok { content := "doc" } } 9).2
    (Emit.toSocket "D" (Event.merGenerated { content := "doc" }))
    (by decide) (by decide)

/-! ## Claim C9: the session-joined transcript truncation -/

theorem createOrGet_existing (st : ServerState) (sid dn : String)
    (pn : Option String) (now : Nat) (s : Session)
    (ha : mapGet st.activeSessions sid = some s) :
    createOrGetSession st sid dn pn now = (s, st) := by
  unfold createOrGetSession
  rw [ha]

theorem backfillName_preserves (s : Session) (ur un : String) :
    (backfillName s ur un).transcript = s.transcript ∧
    (backfillName s ur un).isRecording = s.isRecording ∧
    (backfillName s ur un).status = s.status ∧
    (backfillName s ur un).doctor.socketId = s.doctor.socketId ∧
    (backfillName s ur un).patient.socketId = s.patient.socketId := by
  unfold backfillName
  split
  · simp
  · split <;> simp

/-- Reduction of `joinSessionHandler` for a well-formed join into an existing
session. -/
theorem joinHandler_eq (st : ServerState) (sender : String) (data : JoinData)
    (now : Nat) (sid ur un : String) (s : Session)
    (hsid : data.sessionId = some sid) (hrole : data.userRole = some ur)
    (hname : data.userName = some un)
    (hsidne : sid ≠ "") (hurne : ur ≠ "") (hunne : un ≠ "")
    (ha : mapGet st.activeSessions sid = some s) :
    joinSessionHandler st sender data now =
      (let updated := attachSlot (backfillName s ur un) (roleCoerce ur) sender now
       let st2 : ServerState :=
         { st with activeSessions := mapSet st.activeSessions sid (backfillName s ur un) }
       ({ activeSessions := mapSet st2.activeSessions sid updated
          sessionUsers := mapSet st2.sessionUsers sender sid },
        [Emit.toRoomExcept sid sender (Event.userJoined ur un),
         Emit.toSocket sender
           (Event.sessionJoined sid ur (otherUsersFor updated ur)
             (sliceLast20 updated.transcript) updated.isRecording updated.status)] ++
        (otherUsersFor updated ur).map
          (fun u => Emit.toSocket sender (Event.userJoined u.1 u.2)))) := by
  unfold joinSessionHandler
  rw [hsid, hrole, hname]
  rw [if_neg (by simp [strFalsy, hsidne, hurne, hunne])]
  dsimp only [Option.getD]
  rw [createOrGet_existing st sid un (some ur) now s ha]
  dsimp only
  rw [addUser_eq _ sid ur sender now (backfillName s ur un) (mapGet_mapSet_self _ _ _)]

/-- C9 (confirmed): the `session-joined` payload carries exactly the last
(at most) 20 transcript entries in stored order — never the whole transcript
once it is longer than 20 — and the stored transcript itself is unchanged by
the join. -/
theorem c9_join_truncates_transcript (st : ServerState) (sender : String)
    (data : JoinData) (now : Nat) (sid ur un : String) (s : Session)
    (hsid : data.sessionId = some sid) (hrole : data.userRole = some ur)
    (hname : data.userName = some un)
    (hsidne : sid ≠ "") (hurne : ur ≠ "") (hunne : un ≠ "")
    (ha : mapGet st.activeSessions sid = some s) :
    (∀ tgt esid eru eou etr erec estat,
       Emit.toSocket tgt (Event.sessionJoined esid eru eou etr erec estat) ∈
         (joinSessionHandler st sender data now).2 →
       etr = sliceLast20 s.transcript) ∧
    (∃ eou erec estat,
       Emit.toSocket sender
         (Event.sessionJoined sid ur eou (sliceLast20 s.transcript) erec estat) ∈
         (joinSessionHandler st sender data now).2) ∧
    (sliceLast20 s.transcript).length ≤ 20 ∧
    (s.transcript.length > 20 →
       (sliceLast20 s.transcript).length < s.transcript.length) ∧
    (∃ s1, mapGet (joinSessionHandler st sender data now).1.activeSessions sid =
        some s1 ∧ s1.transcript = s.transcript) := by
  rw [joinHandler_eq st sender data now sid ur un s hsid hrole hname hsidne hurne hunne ha]
  dsimp only
  have ht : (attachSlot (backfillName s ur un) (roleCoerce ur) sender now).transcript =
      s.transcript := by
    rw [(attachSlot_preserves _ _ _ _).2.1, (backfillName_preserves s ur un).1]
  rw [ht]
  refine ⟨?_, ?_, sliceLast20_length_le _, sliceLast20_lt_of_long _, ?_⟩
  · intro tgt esid eru eou etr erec estat hmem
    simp only [List.cons_append, List.nil_append, List.mem_cons, List.mem_map] at hmem
    rcases hmem with h | h | ⟨u, hu, h⟩
    · simp at h
    · have h2 := h
      simp only [Emit.toSocket.injEq, Event.sessionJoined.injEq] at h2
      exact h2.2.2.2.2.1
    · simp at h
  · exact ⟨otherUsersFor (attachSlot (backfillName s ur un) (roleCoerce ur) sender now) ur,
      (attachSlot (backfillName s ur un) (roleCoerce ur) sender now).isRecording,
      (attachSlot (backfillName s ur un) (roleCoerce ur) sender now).status,
      by simp⟩
  · exact ⟨_, mapGet_mapSet_self _ _ _, ht⟩

/-- Witness for `c9_join_truncates_transcript`: a patient joining the
concrete one-entry session receives its (whole, length-1) transcript slice
and the stored transcript is untouched. -/
theorem c9_join_truncates_transcript_witness :
    (∃ eou erec estat,
       Emit.toSocket "X"
         (Event.sessionJoined "s1" "patient" eou (sliceLast20 c5Session.transcript)
           erec estat) ∈
         (joinSessionHandler c5State "X"
           { sessionId := some "s1", userRole := some "patient", userName := some "Bob" }
           9).2) ∧
    (∃ s1, mapGet (joinSessionHandler c5State "X"
        { sessionId := some "s1", userRole := some "patient", userName := some "Bob" }
        9).1.activeSessions "s1" = some s1 ∧ s1.transcript = c5Session.transcript) := by
  have h := c9_join_truncates_transcript c5State "X"
    { sessionId := some "s1", userRole := some "patient", userName := some "Bob" }
    9 "s1" "patient" "Bob" c5Session rfl rfl rfl (by decide) (by decide) (by decide)
    (by decide)
  exact ⟨h.2.1, h.2.2.2.2⟩

end Chhalaang
